import Mathlib

/-!
Verification of the WebRTX analytic-primitive packing and intersection core
(src/fallback/pipeline.ts, src/analytic_shaders.ts, src/bezier_patch.ts).

Shallow-embedding conventions used throughout this file:

* JavaScript numbers and GLSL floats are modelled as exact rationals.
  The numeric primitives that are not rational-valued (Math.hypot and the
  GLSL sqrt / length, and degrees(atan(y, x))) are threaded through as
  explicit function arguments; theorems that need nothing about them hold
  for every choice of those functions, and concrete witnesses instantiate
  them with Rat.sqrt, or with the exact values of atan2 on the coordinate
  axes (the only points where the witnesses consult it).
* Number.isFinite is identically true on exact rationals, so the branches
  that it guards collapse; each such place is noted in a comment.  For the
  claims that are genuinely about NaN / Infinity inputs (the bezier_patch.ts
  converter) a dedicated JsNum type with NaN and signed infinities models
  the IEEE special values exactly, minus rounding.
* Sequential typed-array writes at disjoint contiguous offsets are modelled
  as list concatenation, and a flat Float32Array of fixed-stride records is
  modelled as the list of its records (one inner list per record).
* The wasm BVH build (buildAabbBlasNodes) is the external acceleration
  structure adapter; the model covers the packing stage up to and including
  validatePrimitiveRefTypes, which is everything the claims refer to.
-/

deriving instance DecidableEq for Except

namespace WebRTX

/-- A JS [number, number, number] triple (Vec3 in fallback/scene_descriptor.ts),
with components idealized as exact rationals. -/
structure V3 where
  x : ℚ
  y : ℚ
  z : ℚ
deriving DecidableEq, Repr

/-- Math.max on two (finite) JS numbers.  Written with an explicit if so
that kernel evaluation of concrete builds reduces; it agrees with the lattice
max (see maxQ_eq_max below). -/
def maxQ (a b : ℚ) : ℚ := if a ≤ b then b else a

/-- Math.min on two (finite) JS numbers. -/
def minQ (a b : ℚ) : ℚ := if a ≤ b then a else b

/-- Math.abs / GLSL abs on a (finite) JS number. -/
def absQ (a : ℚ) : ℚ := if a < 0 then -a else a

/-- addVec3 of fallback/pipeline.ts. -/
def addVec3 (a b : V3) : V3 := ⟨a.x + b.x, a.y + b.y, a.z + b.z⟩

/-- subtractVec3 of fallback/pipeline.ts. -/
def subtractVec3 (a b : V3) : V3 := ⟨a.x - b.x, a.y - b.y, a.z - b.z⟩

/-- scaleVec3 of fallback/pipeline.ts. -/
def scaleVec3 (v : V3) (s : ℚ) : V3 := ⟨v.x * s, v.y * s, v.z * s⟩

/-- dotVec3 of fallback/pipeline.ts. -/
def dotVec3 (a b : V3) : ℚ := a.x * b.x + a.y * b.y + a.z * b.z

/-- crossVec3 of fallback/pipeline.ts. -/
def crossVec3 (a b : V3) : V3 :=
  ⟨a.y * b.z - a.z * b.y, a.z * b.x - a.x * b.z, a.x * b.y - a.y * b.x⟩

/-- absVec3 of fallback/pipeline.ts. -/
def absVec3 (v : V3) : V3 := ⟨absQ v.x, absQ v.y, absQ v.z⟩

/-- Squared euclidean norm, used to state length properties exactly. -/
def normSqVec3 (v : V3) : ℚ := dotVec3 v v

/-- normalizeVec3 of fallback/pipeline.ts (lines 605-612).  Math.hypot is the
square root of the sum of squares and is passed in as the argument sqrt;
over exact rationals the Number.isFinite(len) guard is always true, so only
the len < 1e-5 branch remains.  The else branch multiplies by inv = 1/len. -/
def normalizeVec3 (sqrt : ℚ → ℚ) (v : V3) : V3 :=
  let len := sqrt (v.x * v.x + v.y * v.y + v.z * v.z)
  if len < 1 / 100000 then ⟨0, 0, 0⟩
  else scaleVec3 v len⁻¹

/-- The Gram-Schmidt residual ydir - xdir * dot(ydirIn, xdir) computed by
orthonormalizePair of fallback/pipeline.ts (lines 642-647), named so that
theorems can refer to the intermediate value. -/
def gramResidual (sqrt : ℚ → ℚ) (xdirIn ydirIn : V3) : V3 :=
  subtractVec3 ydirIn
    (scaleVec3 (normalizeVec3 sqrt xdirIn) (dotVec3 ydirIn (normalizeVec3 sqrt xdirIn)))

/-- orthonormalizePair of fallback/pipeline.ts (lines 642-647).  Note that,
unlike the variant in scene.ts, this version has no fallback reference axis:
a degenerate input is normalized to the zero vector. -/
def orthonormalizePair (sqrt : ℚ → ℚ) (xdirIn ydirIn : V3) : V3 × V3 :=
  (normalizeVec3 sqrt xdirIn, normalizeVec3 sqrt (gramResidual sqrt xdirIn ydirIn))

/-! ### Scene instance records (fallback/scene_descriptor.ts) -/

/-- SphereInstance. -/
structure SphereInstance where
  center : V3
  radius : ℚ
deriving DecidableEq, Repr

/-- CylinderInstance. -/
structure CylinderInstance where
  center : V3
  xdir : V3
  ydir : V3
  radius : ℚ
  height : ℚ
  angleDeg : ℚ
deriving DecidableEq, Repr

/-- CircleInstance. -/
structure CircleInstance where
  center : V3
  xdir : V3
  ydir : V3
  radius : ℚ
deriving DecidableEq, Repr

/-- EllipseInstance. -/
structure EllipseInstance where
  center : V3
  xdir : V3
  ydir : V3
  radiusX : ℚ
  radiusY : ℚ
deriving DecidableEq, Repr

/-- ConeInstance. -/
structure ConeInstance where
  center : V3
  xdir : V3
  ydir : V3
  radius : ℚ
  height : ℚ
deriving DecidableEq, Repr

/-- LineInstance. -/
structure LineInstance where
  p0 : V3
  p1 : V3
  radius : ℚ
deriving DecidableEq, Repr

/-- TorusInstance. -/
structure TorusInstance where
  center : V3
  xdir : V3
  ydir : V3
  majorRadius : ℚ
  minorRadius : ℚ
  angleDeg : ℚ
deriving DecidableEq, Repr

/-- PlaneInstance. -/
structure PlaneInstance where
  center : V3
  xdir : V3
  ydir : V3
  halfWidth : ℚ
  halfHeight : ℚ
deriving DecidableEq, Repr

/-- BezierPatchInstance: 16 Hermite input vectors plus two optional tunables
(maxDepth?, pixelEpsilon? in scene_descriptor.ts). -/
structure BezierPatchInstance where
  p00 : V3
  p01 : V3
  p10 : V3
  p11 : V3
  du00 : V3
  du01 : V3
  du10 : V3
  du11 : V3
  dv00 : V3
  dv01 : V3
  dv10 : V3
  dv11 : V3
  duv00 : V3
  duv01 : V3
  duv10 : V3
  duv11 : V3
  maxDepth : Option ℚ
  pixelEpsilon : Option ℚ
deriving DecidableEq, Repr

/-- ScenePrimitiveState of fallback/pipeline.ts. -/
structure ScenePrimitiveState where
  spheres : List SphereInstance
  cylinders : List CylinderInstance
  circles : List CircleInstance
  ellipses : List EllipseInstance
  cones : List ConeInstance
  lines : List LineInstance
  tori : List TorusInstance
  planes : List PlaneInstance
  bezierPatches : List BezierPatchInstance
deriving DecidableEq, Repr

/-! ### Layout constants (fallback/pipeline.ts lines 106-126) -/

def SPHERE_FLOATS : ℕ := 4
def ANALYTIC_FLOATS : ℕ := 12
def BEZIER_CONTROL_VEC4 : ℕ := 18
def BEZIER_FLOATS : ℕ := BEZIER_CONTROL_VEC4 * 4
def PRIMITIVE_REF_UINTS : ℕ := 4
/-- Float32Array.BYTES_PER_ELEMENT = Uint32Array.BYTES_PER_ELEMENT = 4. -/
def BYTES_PER_ELEMENT : ℕ := 4
def PRIM_TYPE_SPHERE : ℕ := 0
def PRIM_TYPE_CYLINDER : ℕ := 1
def PRIM_TYPE_CIRCLE : ℕ := 2
def PRIM_TYPE_ELLIPSE : ℕ := 3
def PRIM_TYPE_CONE : ℕ := 4
def PRIM_TYPE_LINE : ℕ := 5
def PRIM_TYPE_TORUS : ℕ := 6
def PRIM_TYPE_PLANE : ℕ := 7
def PRIM_TYPE_BEZIER_PATCH : ℕ := 8
def BEZIER_MAX_DEPTH_DEFAULT : ℚ := 10
def BEZIER_PIXEL_EPSILON_DEFAULT : ℚ := 3

/-! ### Hermite to Bezier conversion over exact rationals
(the local copy in fallback/pipeline.ts lines 657-747; over exact rationals
Number.isFinite is identically true, so sanitizeVec3 is the identity). -/

/-- The fixed 4x4 Hermite-to-Bezier change-of-basis matrix
(pipeline.ts lines 657-662 and bezier_patch.ts lines 17-22). -/
def HERMITE_TO_BEZIER : Fin 4 → Fin 4 → ℚ :=
  ![![1, 0, 0, 0],
    ![1, 0, 1 / 3, 0],
    ![0, 1, 0, -(1 / 3)],
    ![0, 1, 0, 0]]

/-- addScaledVec3 of pipeline.ts / bezier_patch.ts. -/
def addScaledVec3 (acc v : V3) (scalar : ℚ) : V3 :=
  ⟨acc.x + v.x * scalar, acc.y + v.y * scalar, acc.z + v.z * scalar⟩

/-- multiplyHermiteMatrixLeft: result[i][j] = sum over k of data[k][j] * m[i][k],
accumulated exactly as the unrolled k-loop of the source. -/
def multiplyHermiteMatrixLeft (m : Fin 4 → Fin 4 → ℚ) (data : Fin 4 → Fin 4 → V3) :
    Fin 4 → Fin 4 → V3 :=
  fun i j =>
    addScaledVec3
      (addScaledVec3
        (addScaledVec3
          (addScaledVec3 ⟨0, 0, 0⟩ (data 0 j) (m i 0))
          (data 1 j) (m i 1))
        (data 2 j) (m i 2))
      (data 3 j) (m i 3)

/-- multiplyHermiteMatrixRight: result[i][j] = sum over k of data[i][k] * m[j][k]. -/
def multiplyHermiteMatrixRight (data : Fin 4 → Fin 4 → V3) (m : Fin 4 → Fin 4 → ℚ) :
    Fin 4 → Fin 4 → V3 :=
  fun i j =>
    addScaledVec3
      (addScaledVec3
        (addScaledVec3
          (addScaledVec3 ⟨0, 0, 0⟩ (data i 0) (m j 0))
          (data i 1) (m j 1))
        (data i 2) (m j 2))
      (data i 3) (m j 3)

/-- The 4x4 Hermite input grid assembled by convertHermitePatchToBezier
(positions / v-tangents in the first two rows, u-tangents / twists below). -/
def hermiteGrid (p : BezierPatchInstance) : Fin 4 → Fin 4 → V3 :=
  ![![p.p00, p.p01, p.dv00, p.dv01],
    ![p.p10, p.p11, p.dv10, p.dv11],
    ![p.du00, p.du01, p.duv00, p.duv01],
    ![p.du10, p.du11, p.duv10, p.duv11]]

/-- Result record of the converter (BezierPatchConversion). -/
structure BezierPatchConversion where
  controlPoints : List V3
  boundsMin : V3
  boundsMax : V3
  maxDepth : ℚ
  pixelEpsilon : ℚ
deriving DecidableEq, Repr

/-- One boundsMin update step of the converter loop:
each component is replaced when the new point is strictly smaller. -/
def updateBoundsMin (bmin p : V3) : V3 :=
  ⟨if p.x < bmin.x then p.x else bmin.x,
   if p.y < bmin.y then p.y else bmin.y,
   if p.z < bmin.z then p.z else bmin.z⟩

/-- One boundsMax update step of the converter loop. -/
def updateBoundsMax (bmax p : V3) : V3 :=
  ⟨if bmax.x < p.x then p.x else bmax.x,
   if bmax.y < p.y then p.y else bmax.y,
   if bmax.z < p.z then p.z else bmax.z⟩

/-- The 16 grid points visited by the double loop for u in 0..3, v in 0..3. -/
def bezierGridPoints (bez : Fin 4 → Fin 4 → V3) : List V3 :=
  (List.finRange 4).flatMap (fun u => (List.finRange 4).map (fun v => bez u v))

/-- convertHermitePatchToBezier as copied inside fallback/pipeline.ts
(lines 712-747), over exact rationals (sanitizeVec3 = identity there).
maxDepth defaults to 10 and is clamped to at least 1 after flooring;
pixelEpsilon defaults to 3 and is clamped to at least 1e-5. -/
def convertHermitePatchToBezierQ (patch : BezierPatchInstance) : BezierPatchConversion :=
  let temp := multiplyHermiteMatrixLeft HERMITE_TO_BEZIER (hermiteGrid patch)
  let bezier := multiplyHermiteMatrixRight temp HERMITE_TO_BEZIER
  let controlPoints := bezierGridPoints bezier
  let boundsMin := controlPoints.foldl updateBoundsMin (bezier 0 0)
  let boundsMax := controlPoints.foldl updateBoundsMax (bezier 0 0)
  let maxDepth : ℚ :=
    match patch.maxDepth with
    | some d => maxQ 1 ((Rat.floor d : ℤ) : ℚ)
    | none => BEZIER_MAX_DEPTH_DEFAULT
  let pixelEpsilon : ℚ :=
    match patch.pixelEpsilon with
    | some e => maxQ (1 / 100000) e
    | none => BEZIER_PIXEL_EPSILON_DEFAULT
  ⟨controlPoints, boundsMin, boundsMax, maxDepth, pixelEpsilon⟩

/-! ### Per-type packing loop bodies of buildPrimitiveAcceleration
(fallback/pipeline.ts lines 1110-1412).  Each returns the packed parameter
record (the floats written for the instance, in buffer order) and the AABB
pushed for it. -/

/-- Axis-aligned bounding box: the 6 floats (min, max) written per primitive. -/
structure Aabb where
  min : V3
  max : V3
deriving DecidableEq, Repr

/-- Sphere loop body (lines 1110-1122): radius clamped by Math.max(0, r),
record [center, radius], box center plus/minus radius. -/
def packSphere (sp : SphereInstance) : List ℚ × Aabb :=
  let center := sp.center
  let radius := maxQ 0 sp.radius
  ([center.x, center.y, center.z, radius],
   ⟨⟨center.x - radius, center.y - radius, center.z - radius⟩,
    ⟨center.x + radius, center.y + radius, center.z + radius⟩⟩)

/-- Cylinder loop body (lines 1124-1154).  angleDeg is finite over ℚ, so the
Number.isFinite guard keeps the given value. -/
def packCylinder (sqrt : ℚ → ℚ) (c : CylinderInstance) : List ℚ × Aabb :=
  let center := c.center
  let radius := maxQ 0 c.radius
  let height := maxQ 0 c.height
  let angleDeg := c.angleDeg
  let xy := orthonormalizePair sqrt c.xdir c.ydir
  let xdir := xy.1
  let ydir := xy.2
  let axis := normalizeVec3 sqrt (crossVec3 xdir ydir)
  let halfH := height * (1 / 2)
  let ext := addVec3
    (addVec3 (scaleVec3 (absVec3 xdir) radius) (scaleVec3 (absVec3 ydir) radius))
    (scaleVec3 (absVec3 axis) halfH)
  ([center.x, center.y, center.z, radius,
    xdir.x, xdir.y, xdir.z, height,
    ydir.x, ydir.y, ydir.z, angleDeg],
   ⟨subtractVec3 center ext, addVec3 center ext⟩)

/-- Circle (disk) loop body (lines 1156-1190): in-plane extent plus a pad of
max(5e-3, 0.02 * radius) along the plane normal. -/
def packCircle (sqrt : ℚ → ℚ) (c : CircleInstance) : List ℚ × Aabb :=
  let center := c.center
  let radius := maxQ 0 c.radius
  let xy := orthonormalizePair sqrt c.xdir c.ydir
  let xdir := xy.1
  let ydir := xy.2
  let ext := scaleVec3 (addVec3 (absVec3 xdir) (absVec3 ydir)) radius
  let normal := normalizeVec3 sqrt (crossVec3 xdir ydir)
  let normalPadAmount := maxQ (5 / 1000) ((2 / 100) * radius)
  let normalPad := scaleVec3 (absVec3 normal) normalPadAmount
  ([center.x, center.y, center.z, radius,
    xdir.x, xdir.y, xdir.z, 0,
    ydir.x, ydir.y, ydir.z, 0],
   ⟨subtractVec3 (subtractVec3 center ext) normalPad,
    addVec3 (addVec3 center ext) normalPad⟩)

/-- Ellipse loop body (lines 1192-1221): thickness pad of
max(5e-3, 0.5 * max(radiusX, radiusY)) along the normal. -/
def packEllipse (sqrt : ℚ → ℚ) (e : EllipseInstance) : List ℚ × Aabb :=
  let center := e.center
  let radiusX := maxQ 0 e.radiusX
  let radiusY := maxQ 0 e.radiusY
  let xy := orthonormalizePair sqrt e.xdir e.ydir
  let xdir := xy.1
  let ydir := xy.2
  let normal := normalizeVec3 sqrt (crossVec3 xdir ydir)
  let thickness := maxQ (5 / 1000) ((1 / 2) * maxQ radiusX radiusY)
  let ext := addVec3
    (addVec3 (scaleVec3 (absVec3 xdir) radiusX) (scaleVec3 (absVec3 ydir) radiusY))
    (scaleVec3 (absVec3 normal) thickness)
  ([center.x, center.y, center.z, radiusX,
    xdir.x, xdir.y, xdir.z, radiusY,
    ydir.x, ydir.y, ydir.z, 0],
   ⟨subtractVec3 center ext, addVec3 center ext⟩)

/-- Cone loop body (lines 1223-1260): box around base disk and apex with pad
max(1e-4, 1e-3 * max(radius, height)). -/
def packCone (sqrt : ℚ → ℚ) (c : ConeInstance) : List ℚ × Aabb :=
  let center := c.center
  let radius := maxQ 0 c.radius
  let height := maxQ 0 c.height
  let xy := orthonormalizePair sqrt c.xdir c.ydir
  let xdir := xy.1
  let ydir := xy.2
  let axis := normalizeVec3 sqrt (crossVec3 xdir ydir)
  let halfH := height * (1 / 2)
  let baseCenter := addVec3 center (scaleVec3 axis halfH)
  let apex := subtractVec3 center (scaleVec3 axis halfH)
  let baseExt := addVec3 (scaleVec3 (absVec3 xdir) radius) (scaleVec3 (absVec3 ydir) radius)
  let pad := maxQ (1 / 10000) ((1 / 1000) * maxQ radius height)
  ([center.x, center.y, center.z, radius,
    xdir.x, xdir.y, xdir.z, height,
    ydir.x, ydir.y, ydir.z, 0],
   ⟨⟨minQ (baseCenter.x - baseExt.x) apex.x - pad,
     minQ (baseCenter.y - baseExt.y) apex.y - pad,
     minQ (baseCenter.z - baseExt.z) apex.z - pad⟩,
    ⟨maxQ (baseCenter.x + baseExt.x) apex.x + pad,
     maxQ (baseCenter.y + baseExt.y) apex.y + pad,
     maxQ (baseCenter.z + baseExt.z) apex.z + pad⟩⟩)

/-- Line segment loop body (lines 1262-1295): box around both endpoints
expanded by the thickness radius, then by pad max(5e-4, 2e-2 * radius).
The record repeats the radius in slot 7 and zero-fills the last vec4. -/
def packLine (l : LineInstance) : List ℚ × Aabb :=
  let p0 := l.p0
  let p1 := l.p1
  let radius := maxQ 0 l.radius
  let pad := maxQ (5 / 10000) ((2 / 100) * radius)
  ([p0.x, p0.y, p0.z, radius,
    p1.x, p1.y, p1.z, radius,
    0, 0, 0, 0],
   ⟨⟨minQ p0.x p1.x - radius - pad, minQ p0.y p1.y - radius - pad, minQ p0.z p1.z - radius - pad⟩,
    ⟨maxQ p0.x p1.x + radius + pad, maxQ p0.y p1.y + radius + pad, maxQ p0.z p1.z + radius + pad⟩⟩)

/-- Torus loop body (lines 1297-1328): ring extent (majorRadius + minorRadius)
along xdir and the axis plus minorRadius on all components, padded by
max(1e-2 * max(majorRadius, 1), 2e-2 * minorRadius, 5e-3). -/
def packTorus (sqrt : ℚ → ℚ) (t : TorusInstance) : List ℚ × Aabb :=
  let center := t.center
  let majorRadius := maxQ 0 t.majorRadius
  let minorRadius := maxQ 0 t.minorRadius
  let angleDeg := t.angleDeg
  let xy := orthonormalizePair sqrt t.xdir t.ydir
  let xdir := xy.1
  let ydir := xy.2
  let axis := normalizeVec3 sqrt (crossVec3 xdir ydir)
  let ringRadius := majorRadius + minorRadius
  let ext := addVec3
    (addVec3 (scaleVec3 (absVec3 xdir) ringRadius) (scaleVec3 (absVec3 axis) ringRadius))
    ⟨minorRadius, minorRadius, minorRadius⟩
  let pad := maxQ (maxQ ((1 / 100) * maxQ majorRadius 1) ((2 / 100) * minorRadius)) (5 / 1000)
  ([center.x, center.y, center.z, majorRadius,
    xdir.x, xdir.y, xdir.z, minorRadius,
    ydir.x, ydir.y, ydir.z, angleDeg],
   ⟨⟨center.x - ext.x - pad, center.y - ext.y - pad, center.z - ext.z - pad⟩,
    ⟨center.x + ext.x + pad, center.y + ext.y + pad, center.z + ext.z + pad⟩⟩)

/-- Plane (finite quad) loop body (lines 1330-1373): note the different clamp
Math.max(halfWidth, 1e-4), and pad max(5e-3, 0.02 * max(hw, hh)) along the
normal. -/
def packPlane (sqrt : ℚ → ℚ) (p : PlaneInstance) : List ℚ × Aabb :=
  let center := p.center
  let halfWidth := maxQ p.halfWidth (1 / 10000)
  let halfHeight := maxQ p.halfHeight (1 / 10000)
  let xy := orthonormalizePair sqrt p.xdir p.ydir
  let xdirRaw := xy.1
  let ydirRaw := xy.2
  let normal := normalizeVec3 sqrt (crossVec3 xdirRaw ydirRaw)
  let pad := maxQ (5 / 1000) ((2 / 100) * maxQ halfWidth halfHeight)
  let extent := addVec3
    (addVec3 (scaleVec3 (absVec3 xdirRaw) halfWidth) (scaleVec3 (absVec3 ydirRaw) halfHeight))
    (scaleVec3 (absVec3 normal) pad)
  ([center.x, center.y, center.z, halfWidth,
    xdirRaw.x, xdirRaw.y, xdirRaw.z, halfHeight,
    ydirRaw.x, ydirRaw.y, ydirRaw.z, 0],
   ⟨subtractVec3 center extent, addVec3 center extent⟩)

/-- Bezier patch loop body (lines 1375-1412): 18 vec4 worth of floats
(16 control points with 0 in w, then boundsMin with maxDepth in w, then
boundsMax with pixelEpsilon in w); AABB is the control-point bounds padded by
max(1e-4, 1e-3 * largest span). -/
def packBezier (patch : BezierPatchInstance) : List ℚ × Aabb :=
  let converted := convertHermitePatchToBezierQ patch
  let cpFloats := converted.controlPoints.flatMap (fun p => [p.x, p.y, p.z, 0])
  let params := cpFloats ++
    [converted.boundsMin.x, converted.boundsMin.y, converted.boundsMin.z, converted.maxDepth] ++
    [converted.boundsMax.x, converted.boundsMax.y, converted.boundsMax.z, converted.pixelEpsilon]
  let spanX := converted.boundsMax.x - converted.boundsMin.x
  let spanY := converted.boundsMax.y - converted.boundsMin.y
  let spanZ := converted.boundsMax.z - converted.boundsMin.z
  let spanMax := maxQ spanX (maxQ spanY spanZ)
  let pad := maxQ (1 / 10000) (spanMax * (1 / 1000))
  (params,
   ⟨⟨converted.boundsMin.x - pad, converted.boundsMin.y - pad, converted.boundsMin.z - pad⟩,
    ⟨converted.boundsMax.x + pad, converted.boundsMax.y + pad, converted.boundsMax.z + pad⟩⟩)

/-! ### Counts, storage clamps and truncation (pipeline.ts lines 834-1060) -/

/-- PrimitiveCounts of fallback/pipeline.ts. -/
structure PrimitiveCounts where
  sphere : ℕ
  cylinder : ℕ
  circle : ℕ
  ellipse : ℕ
  cone : ℕ
  line : ℕ
  torus : ℕ
  plane : ℕ
  bezier : ℕ
deriving DecidableEq, Repr

/-- The nine primitive kinds, in the fixed packing order. -/
inductive PKind where
  | sphere
  | cylinder
  | circle
  | ellipse
  | cone
  | line
  | torus
  | plane
  | bezier
deriving DecidableEq, Repr

def PrimitiveCounts.get (c : PrimitiveCounts) : PKind → ℕ
  | .sphere => c.sphere
  | .cylinder => c.cylinder
  | .circle => c.circle
  | .ellipse => c.ellipse
  | .cone => c.cone
  | .line => c.line
  | .torus => c.torus
  | .plane => c.plane
  | .bezier => c.bezier

def PrimitiveCounts.set (c : PrimitiveCounts) : PKind → ℕ → PrimitiveCounts
  | .sphere, n => { c with sphere := n }
  | .cylinder, n => { c with cylinder := n }
  | .circle, n => { c with circle := n }
  | .ellipse, n => { c with ellipse := n }
  | .cone, n => { c with cone := n }
  | .line, n => { c with line := n }
  | .torus, n => { c with torus := n }
  | .plane, n => { c with plane := n }
  | .bezier, n => { c with bezier := n }

/-- clampCountForFloatStorage (pipeline.ts lines 834-849): a requested count
is cut to floor(storageBufferLimit / bytesPerPrimitive); a zero was already
returned for an empty request, and a zero capacity drops everything. -/
def clampCountForFloatStorage (storageBufferLimit requestedCount floatsPerPrimitive : ℕ) : ℕ :=
  if requestedCount = 0 then 0
  else
    let maxCount := storageBufferLimit / (floatsPerPrimitive * BYTES_PER_ELEMENT)
    if maxCount = 0 then 0
    else if maxCount < requestedCount then maxCount
    else requestedCount

/-- The truncation loop over a reduce order (pipeline.ts lines 994-1006 and
1037-1049): walk the order, at each key removing min(available, excess). -/
def reduceInOrder : List PKind → PrimitiveCounts → ℕ → PrimitiveCounts
  | [], c, _ => c
  | k :: rest, c, excess =>
    if excess = 0 then c
    else
      let available := c.get k
      let reduceAmount := min available excess
      reduceInOrder rest (c.set k (available - reduceAmount)) (excess - reduceAmount)

/-- analyticReduceOrder (pipeline.ts line 978). -/
def analyticReduceOrder : List PKind :=
  [.plane, .torus, .line, .cone, .ellipse, .circle, .cylinder]

/-- reduceOrder of the primitive-ref truncation (pipeline.ts line 1037). -/
def primitiveReduceOrder : List PKind :=
  [.bezier, .plane, .torus, .line, .cone, .ellipse, .circle, .cylinder, .sphere]

/-- The per-type counts after clampCountForFloatStorage (pipeline.ts 966-976). -/
def clampedCounts (storageBufferLimit : ℕ) (prims : ScenePrimitiveState) : PrimitiveCounts where
  sphere := clampCountForFloatStorage storageBufferLimit prims.spheres.length SPHERE_FLOATS
  cylinder := clampCountForFloatStorage storageBufferLimit prims.cylinders.length ANALYTIC_FLOATS
  circle := clampCountForFloatStorage storageBufferLimit prims.circles.length ANALYTIC_FLOATS
  ellipse := clampCountForFloatStorage storageBufferLimit prims.ellipses.length ANALYTIC_FLOATS
  cone := clampCountForFloatStorage storageBufferLimit prims.cones.length ANALYTIC_FLOATS
  line := clampCountForFloatStorage storageBufferLimit prims.lines.length ANALYTIC_FLOATS
  torus := clampCountForFloatStorage storageBufferLimit prims.tori.length ANALYTIC_FLOATS
  plane := clampCountForFloatStorage storageBufferLimit prims.planes.length ANALYTIC_FLOATS
  bezier := clampCountForFloatStorage storageBufferLimit prims.bezierPatches.length BEZIER_FLOATS

/-- The analytic-buffer truncation pass (pipeline.ts lines 978-1009). -/
def analyticTruncatedCounts (storageBufferLimit : ℕ) (prims : ScenePrimitiveState) :
    PrimitiveCounts :=
  let counts := clampedCounts storageBufferLimit prims
  let maxAnalyticEntries := storageBufferLimit / (ANALYTIC_FLOATS * BYTES_PER_ELEMENT)
  let analyticCount := counts.cylinder + counts.circle + counts.ellipse + counts.cone +
    counts.line + counts.torus + counts.plane
  if maxAnalyticEntries < analyticCount then
    if maxAnalyticEntries = 0 then
      { counts with
          cylinder := 0
          circle := 0
          ellipse := 0
          cone := 0
          line := 0
          torus := 0
          plane := 0 }
    else
      reduceInOrder analyticReduceOrder counts (analyticCount - maxAnalyticEntries)
  else counts

/-- The primitive-ref truncation pass (pipeline.ts lines 1011-1060), returning
the final counts together with the primitiveCount variable as the source
leaves it.  Two slips of the source are modelled faithfully: the zero-capacity
branch does not zero counts.bezier, and the recomputed total after a partial
truncation omits counts.bezier. -/
def finalCountsAndTarget (storageBufferLimit : ℕ) (prims : ScenePrimitiveState) :
    PrimitiveCounts × ℕ :=
  let counts := analyticTruncatedCounts storageBufferLimit prims
  let primitiveCount := counts.sphere + counts.cylinder + counts.circle + counts.ellipse +
    counts.cone + counts.line + counts.torus + counts.plane + counts.bezier
  let maxPrimitiveRefs := storageBufferLimit / (PRIMITIVE_REF_UINTS * BYTES_PER_ELEMENT)
  if maxPrimitiveRefs < primitiveCount then
    if maxPrimitiveRefs = 0 then
      ({ counts with
           sphere := 0
           cylinder := 0
           circle := 0
           ellipse := 0
           cone := 0
           line := 0
           torus := 0
           plane := 0 }, 0)
    else
      let c := reduceInOrder primitiveReduceOrder counts (primitiveCount - maxPrimitiveRefs)
      (c, c.sphere + c.cylinder + c.circle + c.ellipse + c.cone + c.line + c.torus + c.plane)
  else (counts, primitiveCount)

/-! ### Buffer assembly (pipeline.ts lines 1061-1421) -/

/-- One entry of the primitive-reference buffer: the three meaningful uints
written by pushPrimitive (the fourth word is the constant 0). -/
structure PrimRef where
  ty : ℕ
  indexInType : ℕ
  analyticBaseOffset : ℕ
deriving DecidableEq, Repr

/-- Map with an explicit running index, modelling a for-loop whose body uses
the loop counter (the indexInType argument of pushPrimitive). -/
def idxMapFrom {α β : Type} (f : ℕ → α → β) : ℕ → List α → List β
  | _, [] => []
  | i, a :: rest => f i a :: idxMapFrom f (i + 1) rest

/-- Numeric type id of each kind (PRIM_TYPE_* constants). -/
def typeId : PKind → ℕ
  | .sphere => PRIM_TYPE_SPHERE
  | .cylinder => PRIM_TYPE_CYLINDER
  | .circle => PRIM_TYPE_CIRCLE
  | .ellipse => PRIM_TYPE_ELLIPSE
  | .cone => PRIM_TYPE_CONE
  | .line => PRIM_TYPE_LINE
  | .torus => PRIM_TYPE_TORUS
  | .plane => PRIM_TYPE_PLANE
  | .bezier => PRIM_TYPE_BEZIER_PATCH

/-- The analyticBaseOffset passed to pushPrimitive for each kind: the running
starts analyticStartCylinder .. analyticStartPlane (pipeline.ts 1079-1086);
spheres and bezier patches live in their own buffers and get 0. -/
def analyticBaseOf (c : PrimitiveCounts) : PKind → ℕ
  | .sphere => 0
  | .cylinder => 0
  | .circle => c.cylinder
  | .ellipse => c.cylinder + c.circle
  | .cone => c.cylinder + c.circle + c.ellipse
  | .line => c.cylinder + c.circle + c.ellipse + c.cone
  | .torus => c.cylinder + c.circle + c.ellipse + c.cone + c.line
  | .plane => c.cylinder + c.circle + c.ellipse + c.cone + c.line + c.torus
  | .bezier => 0

/-- First geometry index of each kind: the pushPrimitive cursor value when the
per-kind loop starts, i.e. the sum of the counts of the kinds packed before it
in the fixed order sphere, cylinder, circle, ellipse, cone, line, torus,
plane, bezier. -/
def geomBase (c : PrimitiveCounts) : PKind → ℕ
  | .sphere => 0
  | .cylinder => c.sphere
  | .circle => c.sphere + c.cylinder
  | .ellipse => c.sphere + c.cylinder + c.circle
  | .cone => c.sphere + c.cylinder + c.circle + c.ellipse
  | .line => c.sphere + c.cylinder + c.circle + c.ellipse + c.cone
  | .torus => c.sphere + c.cylinder + c.circle + c.ellipse + c.cone + c.line
  | .plane => c.sphere + c.cylinder + c.circle + c.ellipse + c.cone + c.line + c.torus
  | .bezier => c.sphere + c.cylinder + c.circle + c.ellipse + c.cone + c.line + c.torus + c.plane

/-- The per-kind packed (parameter record, AABB) list: the sliced instance
list (prims.<kind>.slice(0, counts.<kind>), pipeline.ts 1061-1069) mapped
through the loop body. -/
def packedOfKind (sqrt : ℚ → ℚ) (prims : ScenePrimitiveState) (counts : PrimitiveCounts) :
    PKind → List (List ℚ × Aabb)
  | .sphere => (prims.spheres.take counts.sphere).map packSphere
  | .cylinder => (prims.cylinders.take counts.cylinder).map (packCylinder sqrt)
  | .circle => (prims.circles.take counts.circle).map (packCircle sqrt)
  | .ellipse => (prims.ellipses.take counts.ellipse).map (packEllipse sqrt)
  | .cone => (prims.cones.take counts.cone).map (packCone sqrt)
  | .line => (prims.lines.take counts.line).map packLine
  | .torus => (prims.tori.take counts.torus).map (packTorus sqrt)
  | .plane => (prims.planes.take counts.plane).map (packPlane sqrt)
  | .bezier => (prims.bezierPatches.take counts.bezier).map packBezier

/-- The pushPrimitive calls issued by one per-kind loop, in order: entry i
carries (type, indexInType = i, analyticBaseOffset) and the AABB. -/
def entriesOfKind (sqrt : ℚ → ℚ) (prims : ScenePrimitiveState) (counts : PrimitiveCounts)
    (k : PKind) : List (PrimRef × Aabb) :=
  idxMapFrom (fun i pa => (⟨typeId k, i, analyticBaseOf counts k⟩, pa.2)) 0
    (packedOfKind sqrt prims counts k)

/-- All pushPrimitive calls of one build, in the fixed packing order. -/
def pushesList (sqrt : ℚ → ℚ) (prims : ScenePrimitiveState) (counts : PrimitiveCounts) :
    List (PrimRef × Aabb) :=
  entriesOfKind sqrt prims counts .sphere ++
    (entriesOfKind sqrt prims counts .cylinder ++
      (entriesOfKind sqrt prims counts .circle ++
        (entriesOfKind sqrt prims counts .ellipse ++
          (entriesOfKind sqrt prims counts .cone ++
            (entriesOfKind sqrt prims counts .line ++
              (entriesOfKind sqrt prims counts .torus ++
                (entriesOfKind sqrt prims counts .plane ++
                  entriesOfKind sqrt prims counts .bezier)))))))

/-- The analytic parameter buffer: the seven per-type segments written at the
contiguous base offsets analyticStartCylinder .. analyticStartPlane, i.e.
their concatenation in that order. -/
def analyticDataOf (sqrt : ℚ → ℚ) (prims : ScenePrimitiveState) (counts : PrimitiveCounts) :
    List (List ℚ) :=
  (packedOfKind sqrt prims counts .cylinder).map (·.1) ++
    ((packedOfKind sqrt prims counts .circle).map (·.1) ++
      ((packedOfKind sqrt prims counts .ellipse).map (·.1) ++
        ((packedOfKind sqrt prims counts .cone).map (·.1) ++
          ((packedOfKind sqrt prims counts .line).map (·.1) ++
            ((packedOfKind sqrt prims counts .torus).map (·.1) ++
              (packedOfKind sqrt prims counts .plane).map (·.1))))))

/-- One run of the check closure in validatePrimitiveRefTypes (pipeline.ts
lines 292-305): count slots starting at slot, each must exist and carry the
expected type word. -/
def checkPrimitiveRefRun (refs : List PrimRef) (expectedType : ℕ) (label : String) :
    ℕ → ℕ → Except String ℕ
  | slot, 0 => .ok slot
  | slot, Nat.succ n =>
    if h : slot < refs.length then
      if (refs.get ⟨slot, h⟩).ty = expectedType then
        checkPrimitiveRefRun refs expectedType label (slot + 1) n
      else .error ("PrimitiveRef type mismatch for " ++ label)
    else .error ("PrimitiveRef buffer too small when validating " ++ label)

/-- validatePrimitiveRefTypes (pipeline.ts lines 292-318): nine runs in the
fixed packing order, then the final scan-past check. -/
def validatePrimitiveRefTypes (refs : List PrimRef) (counts : PrimitiveCounts) :
    Except String Unit := do
  let s1 ← checkPrimitiveRefRun refs PRIM_TYPE_SPHERE "sphere" 0 counts.sphere
  let s2 ← checkPrimitiveRefRun refs PRIM_TYPE_CYLINDER "cylinder" s1 counts.cylinder
  let s3 ← checkPrimitiveRefRun refs PRIM_TYPE_CIRCLE "circle" s2 counts.circle
  let s4 ← checkPrimitiveRefRun refs PRIM_TYPE_ELLIPSE "ellipse" s3 counts.ellipse
  let s5 ← checkPrimitiveRefRun refs PRIM_TYPE_CONE "cone" s4 counts.cone
  let s6 ← checkPrimitiveRefRun refs PRIM_TYPE_LINE "line" s5 counts.line
  let s7 ← checkPrimitiveRefRun refs PRIM_TYPE_TORUS "torus" s6 counts.torus
  let s8 ← checkPrimitiveRefRun refs PRIM_TYPE_PLANE "plane" s7 counts.plane
  let s9 ← checkPrimitiveRefRun refs PRIM_TYPE_BEZIER_PATCH "bezier" s8 counts.bezier
  if refs.length < s9 then .error "PrimitiveRef validation scanned past buffer length"
  else .ok ()

/-- PrimitiveAccelerationData, up to the external BVH build: the counts, the
primitive-reference buffer, the identity index LUT, the per-type parameter
buffers, and the AABB buffer that is handed to buildAabbBlasNodes. -/
structure PrimitiveAccelerationData where
  primitiveCount : ℕ
  counts : PrimitiveCounts
  primitiveRefs : List PrimRef
  indices : List ℕ
  sphereData : List (List ℚ)
  analyticData : List (List ℚ)
  bezierData : List (List ℚ)
  aabbData : List Aabb
deriving DecidableEq, Repr

/-- buildPrimitiveAcceleration (pipeline.ts lines 965-1492), modelled up to
the external BVH build.  pushPrimitive ignores every call once the cursor has
reached primitiveCount, so the pushed sequence is the take of the full push
list; the post-loop fix-up (lines 1414-1419) then makes primitiveCount equal
to the cursor, i.e. to the length of that take.  The validation throw is an
Except.error. -/
def buildPrimitiveAcceleration (sqrt : ℚ → ℚ) (storageBufferLimit : ℕ)
    (prims : ScenePrimitiveState) : Except String PrimitiveAccelerationData :=
  let ct := finalCountsAndTarget storageBufferLimit prims
  let counts := ct.1
  let target := ct.2
  let pushed := (pushesList sqrt prims counts).take target
  let primitiveCount := pushed.length
  let primitiveRefs := pushed.map (·.1)
  let aabbData := pushed.map (·.2)
  let indices := List.range primitiveCount
  match validatePrimitiveRefTypes primitiveRefs counts with
  | .error e => .error e
  | .ok _ =>
    .ok
      { primitiveCount := primitiveCount
        counts := counts
        primitiveRefs := primitiveRefs
        indices := indices
        sphereData := (packedOfKind sqrt prims counts .sphere).map (·.1)
        analyticData := analyticDataOf sqrt prims counts
        bezierData := (packedOfKind sqrt prims counts .bezier).map (·.1)
        aabbData := aabbData }

/-- The module-level mutable debug flags of fallback/pipeline.ts
(debugPrimitiveSnapshotLogged, debugBvhSnapshotLogged, lines 130-131) -- the
only mutable state the packing stage touches. -/
structure DebugFlags where
  primitiveSnapshotLogged : Bool
  bvhSnapshotLogged : Bool
deriving DecidableEq, Repr

/-- buildPrimitiveAcceleration with its effect on the module-level debug
state made explicit: when debug logging is enabled and the snapshot has not
been logged yet, the flag is set (pipeline.ts lines 1423-1459); the data
produced does not depend on the flags. -/
def buildPrimitiveAccelerationLogged (debugLoggingEnabled : Bool) (flags : DebugFlags)
    (sqrt : ℚ → ℚ) (storageBufferLimit : ℕ) (prims : ScenePrimitiveState) :
    DebugFlags × Except String PrimitiveAccelerationData :=
  let result := buildPrimitiveAcceleration sqrt storageBufferLimit prims
  let flags1 :=
    if debugLoggingEnabled && !flags.primitiveSnapshotLogged then
      { flags with primitiveSnapshotLogged := true }
    else flags
  (flags1, result)

/-- The packed record and AABB that the instance at per-type slot i of the
given kind produces (the claim-side resolver for geometry-index consistency). -/
def kindPacked (sqrt : ℚ → ℚ) (prims : ScenePrimitiveState) (counts : PrimitiveCounts) :
    PKind → ℕ → Option (List ℚ × Aabb)
  | .sphere, i => ((prims.spheres.take counts.sphere)[i]?).map packSphere
  | .cylinder, i => ((prims.cylinders.take counts.cylinder)[i]?).map (packCylinder sqrt)
  | .circle, i => ((prims.circles.take counts.circle)[i]?).map (packCircle sqrt)
  | .ellipse, i => ((prims.ellipses.take counts.ellipse)[i]?).map (packEllipse sqrt)
  | .cone, i => ((prims.cones.take counts.cone)[i]?).map (packCone sqrt)
  | .line, i => ((prims.lines.take counts.line)[i]?).map packLine
  | .torus, i => ((prims.tori.take counts.torus)[i]?).map (packTorus sqrt)
  | .plane, i => ((prims.planes.take counts.plane)[i]?).map (packPlane sqrt)
  | .bezier, i => ((prims.bezierPatches.take counts.bezier)[i]?).map packBezier

/-- Reading the parameter record of a kind at a slot of the built buffers:
spheres and bezier patches from their own buffers, the seven analytic kinds
from the shared packed analytic buffer. -/
def paramRecordAt (d : PrimitiveAccelerationData) : PKind → ℕ → Option (List ℚ)
  | .sphere, n => d.sphereData[n]?
  | .bezier, n => d.bezierData[n]?
  | .cylinder, n => d.analyticData[n]?
  | .circle, n => d.analyticData[n]?
  | .ellipse, n => d.analyticData[n]?
  | .cone, n => d.analyticData[n]?
  | .line, n => d.analyticData[n]?
  | .torus, n => d.analyticData[n]?
  | .plane, n => d.analyticData[n]?

/-- The per-kind instance-list length of a scene. -/
def kindLen (prims : ScenePrimitiveState) : PKind → ℕ
  | .sphere => prims.spheres.length
  | .cylinder => prims.cylinders.length
  | .circle => prims.circles.length
  | .ellipse => prims.ellipses.length
  | .cone => prims.cones.length
  | .line => prims.lines.length
  | .torus => prims.tori.length
  | .plane => prims.planes.length
  | .bezier => prims.bezierPatches.length

/-! ### GLSL intersection kernels (src/analytic_shaders.ts) -/

/-- INF = 1e38 of the intersection shader. -/
def INF : ℚ := 10 ^ 38

/-- GLSL EPS = 1e-5 of the intersection shader. -/
def GLSL_EPS : ℚ := 1 / 100000

/-- GLSL normalize(v) = v / length(v); the GLSL sqrt is the argument.  (On a
zero vector GLSL is undefined; over ℚ the convention 0 inverse = 0 makes the
result the zero vector, which only ever feeds further dot products here.) -/
def glslNormalize (sqrt : ℚ → ℚ) (v : V3) : V3 :=
  scaleVec3 v (sqrt (dotVec3 v v))⁻¹

/-- The discriminant b*b - (dot(oc,oc) - R*R) of the sphere branch
(analytic_shaders.ts line 431). -/
def sphereDisc (center : V3) (R : ℚ) (ro rd : V3) : ℚ :=
  let oc := subtractVec3 ro center
  let b := dotVec3 oc rd
  b * b - (dotVec3 oc oc - R * R)

/-- The smaller candidate root t0 = -b - sqrt(disc) of the sphere branch. -/
def sphereT0 (sqrt : ℚ → ℚ) (center : V3) (R : ℚ) (ro rd : V3) : ℚ :=
  -(dotVec3 (subtractVec3 ro center) rd) - sqrt (sphereDisc center R ro rd)

/-- The larger candidate root t1 = -b + sqrt(disc) of the sphere branch. -/
def sphereT1 (sqrt : ℚ → ℚ) (center : V3) (R : ℚ) (ro rd : V3) : ℚ :=
  -(dotVec3 (subtractVec3 ro center) rd) + sqrt (sphereDisc center R ro rd)

/-- Sphere branch of getIntersectionShader (analytic_shaders.ts line 431):
solve the quadratic (with a = 1 for the unit-length ray direction the shader
receives), take the smaller root, fall back to the larger one when it is
below nearT, and report when the chosen root lies in [nearT, INF). -/
def sphereIntersect (sqrt : ℚ → ℚ) (center : V3) (R : ℚ) (ro rd : V3) (nearT : ℚ) :
    Option ℚ :=
  let disc := sphereDisc center R ro rd
  if 0 ≤ disc then
    let t0 := sphereT0 sqrt center R ro rd
    let t1 := sphereT1 sqrt center R ro rd
    let tt := if t0 < nearT then t1 else t0
    if nearT ≤ tt ∧ tt < INF then some tt else none
  else none

/-- Sphere normal of getClosestHitShader (analytic_shaders.ts line 681):
normalize(hitPoint - center). -/
def sphereNormal (sqrt : ℚ → ℚ) (center : V3) (ro rd : V3) (t : ℚ) : V3 :=
  glslNormalize sqrt (subtractVec3 (addVec3 ro (scaleVec3 rd t)) center)

/-- CylParam SSBO record: c0 = center.xyz | radius, c1 = xdir.xyz | height,
c2 = ydir.xyz | angleDeg. -/
structure CylParams where
  center : V3
  xdirRaw : V3
  ydirRaw : V3
  radius : ℚ
  height : ℚ
  angleDeg : ℚ
deriving DecidableEq, Repr

/-- The local frame the cylinder branch derives before root finding
(analytic_shaders.ts lines 436-440): renormalized basis, repaired axis, and
the ray decomposed into components along and perpendicular to the axis. -/
structure CylFrame where
  xdir : V3
  yIn : V3
  axis : V3
  halfH : ℚ
  roZ : ℚ
  rdZ : ℚ
  roXY : V3
  rdXY : V3
deriving DecidableEq, Repr

/-- cylinderFrame: xdir = normalize(c1.xyz), yIn = normalize(c2.xyz - xdir *
dot(c2.xyz, xdir)), axis = normalize(cross(xdir, yIn)) with the (0,1,0)
fallback when its length is below 1e-6. -/
def cylinderFrame (sqrt : ℚ → ℚ) (p : CylParams) (ro rd : V3) : CylFrame :=
  let xdir := glslNormalize sqrt p.xdirRaw
  let yIn := glslNormalize sqrt (subtractVec3 p.ydirRaw (scaleVec3 xdir (dotVec3 p.ydirRaw xdir)))
  let axis0 := glslNormalize sqrt (crossVec3 xdir yIn)
  let axis := if sqrt (dotVec3 axis0 axis0) < 1 / 1000000 then ⟨0, 1, 0⟩ else axis0
  let halfH := p.height * (1 / 2)
  let roW := subtractVec3 ro p.center
  let roZ := dotVec3 roW axis
  let rdZ := dotVec3 rd axis
  ⟨xdir, yIn, axis, halfH, roZ, rdZ,
   subtractVec3 roW (scaleVec3 axis roZ), subtractVec3 rd (scaleVec3 axis rdZ)⟩

/-- The wrap of the computed angle into [0, 360): if (ang < 0) ang += 360. -/
def wrapAngle (a : ℚ) : ℚ := if a < 0 then a + 360 else a

/-- The azimuth value the cylinder kernel computes and tests for a candidate
at parameter t: degrees(atan(pLocal.y, pLocal.x)) of the world-space in-plane
point pLocal = roXY + rdXY * t, wrapped into [0, 360).  Note that this uses
the world y and x components of pLocal, not its coordinates in the
(xdir, ydir) frame. -/
def cylCodeAzimuth (sqrt : ℚ → ℚ) (atan2deg : ℚ → ℚ → ℚ) (p : CylParams) (ro rd : V3)
    (t : ℚ) : ℚ :=
  let fr := cylinderFrame sqrt p ro rd
  let pLocal := addVec3 fr.roXY (scaleVec3 fr.rdXY t)
  wrapAngle (atan2deg pLocal.y pLocal.x)

/-- Modelled from the spec words of the partial-revolution claim: the azimuth
computed as atan2 in the local (xdir, ydir) frame -- atan2 of the pLocal
coordinates along ydir and xdir -- wrapped into [0, 360).  This is the
claim-side definition, to be compared with cylCodeAzimuth. -/
def cylLocalFrameAzimuth (sqrt : ℚ → ℚ) (atan2deg : ℚ → ℚ → ℚ) (p : CylParams) (ro rd : V3)
    (t : ℚ) : ℚ :=
  let fr := cylinderFrame sqrt p ro rd
  let pLocal := addVec3 fr.roXY (scaleVec3 fr.rdXY t)
  wrapAngle (atan2deg (dotVec3 pLocal fr.yIn) (dotVec3 pLocal fr.xdir))

/-- One lateral-surface candidate of the cylinder branch (analytic_shaders.ts
lines 447-449): skip when below nearT or not better than the current best,
when the axial coordinate is outside [-halfH-EPS, halfH+EPS], or when the
wrapped azimuth exceeds angleDeg on a partial cylinder; otherwise the
candidate becomes the best hit with kind 0.  State is (bestT, bestKind). -/
def cylSideCandidate (atan2deg : ℚ → ℚ → ℚ) (angleDeg nearT : ℚ) (fr : CylFrame) (tt : ℚ)
    (st : ℚ × Int) : ℚ × Int :=
  if tt < nearT ∨ st.1 ≤ tt then st
  else
    let z := fr.roZ + tt * fr.rdZ
    if z < -fr.halfH - GLSL_EPS ∨ fr.halfH + GLSL_EPS < z then st
    else
      let pLocal := addVec3 fr.roXY (scaleVec3 fr.rdXY tt)
      let ang := wrapAngle (atan2deg pLocal.y pLocal.x)
      if angleDeg < 360 ∧ angleDeg < ang then st
      else (tt, 0)

/-- One end-cap candidate (analytic_shaders.ts lines 453-454): accept when at
least nearT, better than the current best, strictly inside the disk (squared
radius minus 1e-6), and not rejected by the partial-revolution azimuth test;
kind is 1 for the top cap and 2 for the bottom cap. -/
def cylCapCandidate (atan2deg : ℚ → ℚ → ℚ) (angleDeg nearT radius : ℚ) (fr : CylFrame)
    (tCap : ℚ) (kind : Int) (st : ℚ × Int) : ℚ × Int :=
  if tCap < nearT ∨ st.1 ≤ tCap then st
  else
    let pLocal := addVec3 fr.roXY (scaleVec3 fr.rdXY tCap)
    if dotVec3 pLocal pLocal ≤ radius * radius - 1 / 1000000 then
      let ang := wrapAngle (atan2deg pLocal.y pLocal.x)
      if ¬(angleDeg < 360 ∧ angleDeg < ang) then (tCap, kind) else st
    else st

/-- The (bestT, bestKind) state after the lateral-surface loop of the
cylinder branch (analytic_shaders.ts lines 442-451): starting from
(INF, -1), the quadratic for the lateral surface is solved when the
perpendicular direction is nonzero and both roots are tried in order. -/
def cylinderSideState (sqrt : ℚ → ℚ) (atan2deg : ℚ → ℚ → ℚ) (p : CylParams) (ro rd : V3)
    (nearT : ℚ) : ℚ × Int :=
  let fr := cylinderFrame sqrt p ro rd
  let st0 : ℚ × Int := (INF, -1)
  let a := dotVec3 fr.rdXY fr.rdXY
  if 0 < a then
    let b := 2 * dotVec3 fr.roXY fr.rdXY
    let cc := dotVec3 fr.roXY fr.roXY - p.radius * p.radius
    let disc := b * b - 4 * a * cc
    if 0 ≤ disc then
      let sdisc := sqrt disc
      let inv2a := (1 / 2) / a
      let cand0 := (-b - sdisc) * inv2a
      let cand1 := (-b + sdisc) * inv2a
      cylSideCandidate atan2deg p.angleDeg nearT fr cand1
        (cylSideCandidate atan2deg p.angleDeg nearT fr cand0 st0)
    else st0
  else st0

/-- The (bestT, bestKind) state after the end-cap tests (analytic_shaders.ts
lines 452-455): when the ray is not parallel to the caps, the top cap and
then the bottom cap are tried against the state left by the lateral loop. -/
def cylinderCapState (sqrt : ℚ → ℚ) (atan2deg : ℚ → ℚ → ℚ) (p : CylParams) (ro rd : V3)
    (nearT : ℚ) : ℚ × Int :=
  let fr := cylinderFrame sqrt p ro rd
  let st1 := cylinderSideState sqrt atan2deg p ro rd nearT
  if 1 / 10000000 < absQ fr.rdZ then
    let tTop := (fr.halfH - fr.roZ) / fr.rdZ
    let tBot := (-fr.halfH - fr.roZ) / fr.rdZ
    cylCapCandidate atan2deg p.angleDeg nearT p.radius fr tBot 2
      (cylCapCandidate atan2deg p.angleDeg nearT p.radius fr tTop 1 st1)
  else st1

/-- Cylinder branch of getIntersectionShader (analytic_shaders.ts lines
432-456): quadratic for the lateral surface (both roots tried in order), then
the two end caps when the ray is not parallel to them, keeping the closest
accepted candidate; a hit is reported when some candidate was accepted
(bestKind >= 0) and its distance is below INF. -/
def cylinderIntersect (sqrt : ℚ → ℚ) (atan2deg : ℚ → ℚ → ℚ) (p : CylParams) (ro rd : V3)
    (nearT : ℚ) : Option ℚ :=
  let st2 := cylinderCapState sqrt atan2deg p ro rd nearT
  if 0 ≤ st2.2 ∧ st2.1 < INF then some st2.1 else none

/-- Exact values of degrees(atan(y, x)) for arguments on the coordinate axes;
every point where a witness or counterexample consults the atan2 argument
lies on an axis, so this instantiation agrees there with the real atan2. -/
def atan2degAxis (y x : ℚ) : ℚ :=
  if y = 0 then (if 0 ≤ x then 0 else 180)
  else if x = 0 then (if 0 < y then 90 else -90)
  else 0

/-! ### Bezier patch evaluation and Newton-Raphson refinement
(analytic_shaders.ts lines 137-286) -/

/-- GLSL mix(a, b, t) = a * (1 - t) + b * t. -/
def mixQ (a b t : ℚ) : ℚ := a * (1 - t) + b * t

/-- Componentwise mix on vectors. -/
def mixVec3 (a b : V3) (t : ℚ) : V3 := ⟨mixQ a.x b.x t, mixQ a.y b.y t, mixQ a.z b.z t⟩

/-- bezierEval (analytic_shaders.ts lines 137-178): de Casteljau evaluation
of the bicubic patch at (u, v), returning (P, dPu, dPv).  The flat cp[16]
array with index u*4+v is modelled as a Fin 4 -> Fin 4 -> V3 grid (bezierGet
cp u v = cp[u*4+v]). -/
def bezierEvalP (cp : Fin 4 → Fin 4 → V3) (u v : ℚ) : V3 × V3 × V3 :=
  let Cv : Fin 4 → V3 := fun i =>
    let a := mixVec3 (cp i 0) (cp i 1) v
    let b := mixVec3 (cp i 1) (cp i 2) v
    let c := mixVec3 (cp i 2) (cp i 3) v
    let d := mixVec3 a b v
    let e := mixVec3 b c v
    mixVec3 d e v
  let A := mixVec3 (Cv 0) (Cv 1) u
  let B := mixVec3 (Cv 1) (Cv 2) u
  let C := mixVec3 (Cv 2) (Cv 3) u
  let D := mixVec3 A B u
  let E := mixVec3 B C u
  let P := mixVec3 D E u
  let dPu := scaleVec3 (subtractVec3 E D) 3
  let Ru : Fin 4 → V3 := fun j =>
    let a := mixVec3 (cp 0 j) (cp 1 j) u
    let b := mixVec3 (cp 1 j) (cp 2 j) u
    let c := mixVec3 (cp 2 j) (cp 3 j) u
    let d := mixVec3 a b u
    let e := mixVec3 b c u
    mixVec3 d e u
  let A2 := mixVec3 (Ru 0) (Ru 1) v
  let B2 := mixVec3 (Ru 1) (Ru 2) v
  let C2 := mixVec3 (Ru 2) (Ru 3) v
  let D2 := mixVec3 A2 B2 v
  let E2 := mixVec3 B2 C2 v
  let dPv := scaleVec3 (subtractVec3 E2 D2) 3
  (P, dPu, dPv)

/-- EPS_F = 1e-4 of newtonRefine. -/
def NEWTON_EPS_F : ℚ := 1 / 10000

/-- EPS_P = 1e-5 of newtonRefine. -/
def NEWTON_EPS_P : ℚ := 1 / 100000

/-- The in-range test of newtonRefine: u, v in [0, 1] with the 0.01 margin
and t in [tMin, tMax]. -/
def newtonInside (tMin tMax u v t : ℚ) : Bool :=
  decide (-(1 / 100) ≤ u ∧ u ≤ 101 / 100 ∧ -(1 / 100) ≤ v ∧ v ≤ 101 / 100 ∧
    tMin ≤ t ∧ t ≤ tMax)

/-- The position residual length(P(u,v) - (ro + rd * t)) that newtonRefine
computes with the GLSL length (the sqrt argument applied to the squared
norm). -/
def newtonResidual (sqrt : ℚ → ℚ) (cp : Fin 4 → Fin 4 → V3) (ro rd : V3) (u v t : ℚ) : ℚ :=
  let F := subtractVec3 (bezierEvalP cp u v).1 (addVec3 ro (scaleVec3 rd t))
  sqrt (dotVec3 F F)

/-- The determinant dot(dPu, cross(dPv, -rd)) of the 3x3 Newton system. -/
def newtonDet (cp : Fin 4 → Fin 4 → V3) (rd : V3) (u v : ℚ) : ℚ :=
  let e := bezierEvalP cp u v
  dotVec3 e.2.1 (crossVec3 e.2.2 (scaleVec3 rd (-1)))

/-- The iteration of newtonRefine (analytic_shaders.ts lines 240-286) with an
explicit fuel counter; the source runs it with MAX_IT = 8.  Returns the
success flag together with the final (u, v, t). -/
def newtonLoop (sqrt : ℚ → ℚ) (cp : Fin 4 → Fin 4 → V3) (rayOrigin rayDir : V3)
    (tMin tMax : ℚ) : ℕ → ℚ → ℚ → ℚ → Bool × ℚ × ℚ × ℚ
  | 0, u, v, t => (false, u, v, t)
  | Nat.succ n, u, v, t =>
    let e := bezierEvalP cp u v
    let F := subtractVec3 e.1 (addVec3 rayOrigin (scaleVec3 rayDir t))
    let err := sqrt (dotVec3 F F)
    if err < NEWTON_EPS_F then
      (newtonInside tMin tMax u v t, u, v, t)
    else
      let c0 := e.2.1
      let c1 := e.2.2
      let c2 := scaleVec3 rayDir (-1)
      let r0 := crossVec3 c1 c2
      let r1 := crossVec3 c2 c0
      let r2 := crossVec3 c0 c1
      let det := dotVec3 c0 r0
      if absQ det < 1 / 10000000000 then (false, u, v, t)
      else
        let invDet := -1 / det
        let du := dotVec3 r0 F * invDet
        let dv := dotVec3 r1 F * invDet
        let dt := dotVec3 r2 F * invDet
        let u1 := u + du
        let v1 := v + dv
        let t1 := t + dt
        if absQ du < NEWTON_EPS_P ∧ absQ dv < NEWTON_EPS_P ∧ absQ dt < NEWTON_EPS_P then
          let e2 := bezierEvalP cp u1 v1
          let F2 := subtractVec3 e2.1 (addVec3 rayOrigin (scaleVec3 rayDir t1))
          let err2 := sqrt (dotVec3 F2 F2)
          if newtonInside tMin tMax u1 v1 t1 = true ∧ err2 < NEWTON_EPS_F then
            (true, u1, v1, t1)
          else newtonLoop sqrt cp rayOrigin rayDir tMin tMax n u1 v1 t1
        else newtonLoop sqrt cp rayOrigin rayDir tMin tMax n u1 v1 t1

/-- newtonRefine: the loop with its fixed iteration bound MAX_IT = 8. -/
def newtonRefine (sqrt : ℚ → ℚ) (cp : Fin 4 → Fin 4 → V3) (rayOrigin rayDir : V3)
    (tMin tMax u v t : ℚ) : Bool × ℚ × ℚ × ℚ :=
  newtonLoop sqrt cp rayOrigin rayDir tMin tMax 8 u v t

/-! ### src/bezier_patch.ts over IEEE special values

The standalone converter in bezier_patch.ts must cope with NaN and Infinity
inputs (its sanitizeVec3 exists for exactly that), so its numbers are
modelled by a type with the IEEE special values; finite values are exact
(rounding is idealized away, which does not affect any of the claimed
Boolean structure). -/

/-- A JS number: a finite value, NaN, or a signed infinity. -/
inductive JsNum where
  | num (q : ℚ)
  | nan
  | pinf
  | ninf
deriving DecidableEq, Repr

/-- IEEE addition on JS numbers (without rounding). -/
def jadd : JsNum → JsNum → JsNum
  | .num a, .num b => .num (a + b)
  | .nan, _ => .nan
  | _, .nan => .nan
  | .pinf, .ninf => .nan
  | .ninf, .pinf => .nan
  | .pinf, _ => .pinf
  | _, .pinf => .pinf
  | .ninf, _ => .ninf
  | _, .ninf => .ninf

/-- IEEE multiplication on JS numbers (without rounding); note that
0 * Infinity = NaN. -/
def jmul : JsNum → JsNum → JsNum
  | .num a, .num b => .num (a * b)
  | .nan, _ => .nan
  | _, .nan => .nan
  | .pinf, .pinf => .pinf
  | .pinf, .ninf => .ninf
  | .ninf, .pinf => .ninf
  | .ninf, .ninf => .pinf
  | .pinf, .num b => if b = 0 then .nan else if 0 < b then .pinf else .ninf
  | .num a, .pinf => if a = 0 then .nan else if 0 < a then .pinf else .ninf
  | .ninf, .num b => if b = 0 then .nan else if 0 < b then .ninf else .pinf
  | .num a, .ninf => if a = 0 then .nan else if 0 < a then .ninf else .pinf

/-- The JS comparison a < b (false whenever NaN is involved). -/
def jlt : JsNum → JsNum → Bool
  | .num a, .num b => decide (a < b)
  | .nan, _ => false
  | _, .nan => false
  | .pinf, _ => false
  | _, .pinf => true
  | .ninf, .ninf => false
  | .ninf, .num _ => true
  | .num _, .ninf => false

/-- The JS comparison a <= b (false whenever NaN is involved). -/
def jle : JsNum → JsNum → Bool
  | .num a, .num b => decide (a ≤ b)
  | .nan, _ => false
  | _, .nan => false
  | .pinf, .pinf => true
  | .pinf, _ => false
  | _, .pinf => true
  | .ninf, _ => true
  | .num _, .ninf => false

/-- Number.isFinite. -/
def isFiniteJ : JsNum → Bool
  | .num _ => true
  | _ => false

/-- A Vec3 of JS numbers. -/
structure JsVec3 where
  x : JsNum
  y : JsNum
  z : JsNum
deriving DecidableEq, Repr

/-- sanitizeVec3 of bezier_patch.ts (lines 36-42): non-finite components are
replaced by 0. -/
def sanitizeVec3J (v : JsVec3) : JsVec3 :=
  ⟨if isFiniteJ v.x then v.x else .num 0,
   if isFiniteJ v.y then v.y else .num 0,
   if isFiniteJ v.z then v.z else .num 0⟩

/-- addScaledVec3 of bezier_patch.ts; the scalar is one of the (finite)
HERMITE_TO_BEZIER matrix entries. -/
def addScaledVec3J (acc v : JsVec3) (scalar : ℚ) : JsVec3 :=
  ⟨jadd acc.x (jmul v.x (.num scalar)),
   jadd acc.y (jmul v.y (.num scalar)),
   jadd acc.z (jmul v.z (.num scalar))⟩

/-- multiplyHermiteMatrixLeft of bezier_patch.ts over JS numbers. -/
def multiplyHermiteMatrixLeftJ (m : Fin 4 → Fin 4 → ℚ) (data : Fin 4 → Fin 4 → JsVec3) :
    Fin 4 → Fin 4 → JsVec3 :=
  fun i j =>
    addScaledVec3J
      (addScaledVec3J
        (addScaledVec3J
          (addScaledVec3J ⟨.num 0, .num 0, .num 0⟩ (data 0 j) (m i 0))
          (data 1 j) (m i 1))
        (data 2 j) (m i 2))
      (data 3 j) (m i 3)

/-- multiplyHermiteMatrixRight of bezier_patch.ts over JS numbers. -/
def multiplyHermiteMatrixRightJ (data : Fin 4 → Fin 4 → JsVec3) (m : Fin 4 → Fin 4 → ℚ) :
    Fin 4 → Fin 4 → JsVec3 :=
  fun i j =>
    addScaledVec3J
      (addScaledVec3J
        (addScaledVec3J
          (addScaledVec3J ⟨.num 0, .num 0, .num 0⟩ (data i 0) (m j 0))
          (data i 1) (m j 1))
        (data i 2) (m j 2))
      (data i 3) (m j 3)

/-- BezierPatchInstance with JS-number components (the authoring data may
contain NaN / Infinity). -/
structure BezierPatchInstanceJ where
  p00 : JsVec3
  p01 : JsVec3
  p10 : JsVec3
  p11 : JsVec3
  du00 : JsVec3
  du01 : JsVec3
  du10 : JsVec3
  du11 : JsVec3
  dv00 : JsVec3
  dv01 : JsVec3
  dv10 : JsVec3
  dv11 : JsVec3
  duv00 : JsVec3
  duv01 : JsVec3
  duv10 : JsVec3
  duv11 : JsVec3
  maxDepth : Option JsNum
  pixelEpsilon : Option JsNum
deriving DecidableEq, Repr

/-- The Hermite input grid of convertHermitePatchToBezier (bezier_patch.ts
lines 73-78). -/
def hermiteGridJ (p : BezierPatchInstanceJ) : Fin 4 → Fin 4 → JsVec3 :=
  ![![p.p00, p.p01, p.dv00, p.dv01],
    ![p.p10, p.p11, p.dv10, p.dv11],
    ![p.du00, p.du01, p.duv00, p.duv01],
    ![p.du10, p.du11, p.duv10, p.duv11]]

/-- Result record of the bezier_patch.ts converter. -/
structure BezierPatchConversionJ where
  controlPoints : List JsVec3
  boundsMin : JsVec3
  boundsMax : JsVec3
  maxDepth : ℚ
  pixelEpsilon : ℚ
deriving DecidableEq, Repr

/-- One boundsMin update of the converter loop, with JS comparisons. -/
def updateBoundsMinJ (bmin p : JsVec3) : JsVec3 :=
  ⟨if jlt p.x bmin.x then p.x else bmin.x,
   if jlt p.y bmin.y then p.y else bmin.y,
   if jlt p.z bmin.z then p.z else bmin.z⟩

/-- One boundsMax update of the converter loop, with JS comparisons. -/
def updateBoundsMaxJ (bmax p : JsVec3) : JsVec3 :=
  ⟨if jlt bmax.x p.x then p.x else bmax.x,
   if jlt bmax.y p.y then p.y else bmax.y,
   if jlt bmax.z p.z then p.z else bmax.z⟩

/-- The 16 sanitized grid points pushed by the double loop (u then v). -/
def sanitizedGridPoints (bez : Fin 4 → Fin 4 → JsVec3) : List JsVec3 :=
  (List.finRange 4).flatMap (fun u => (List.finRange 4).map (fun v => sanitizeVec3J (bez u v)))

/-- convertHermitePatchToBezier of bezier_patch.ts (lines 72-113): the fixed
two-sided matrix product, sanitation of every output vector, the bounds fold
started from the sanitized (0,0) point, and the two defaulted/clamped
tunables (typeof x === number admits NaN and Infinity, which the isFinite
check then rejects, so only a finite supplied value survives). -/
def convertHermitePatchToBezierJ (patch : BezierPatchInstanceJ) : BezierPatchConversionJ :=
  let temp := multiplyHermiteMatrixLeftJ HERMITE_TO_BEZIER (hermiteGridJ patch)
  let bezier := multiplyHermiteMatrixRightJ temp HERMITE_TO_BEZIER
  let controlPoints := sanitizedGridPoints bezier
  let init := sanitizeVec3J (bezier 0 0)
  let boundsMin := controlPoints.foldl updateBoundsMinJ init
  let boundsMax := controlPoints.foldl updateBoundsMaxJ init
  let maxDepth : ℚ :=
    match patch.maxDepth with
    | some (.num d) => maxQ 1 ((Rat.floor d : ℤ) : ℚ)
    | _ => BEZIER_MAX_DEPTH_DEFAULT
  let pixelEpsilon : ℚ :=
    match patch.pixelEpsilon with
    | some (.num e) => maxQ (1 / 100000) e
    | _ => BEZIER_PIXEL_EPSILON_DEFAULT
  ⟨controlPoints, boundsMin, boundsMax, maxDepth, pixelEpsilon⟩

/-- Lift an exact vector to a JS-number vector. -/
def liftV3 (v : V3) : JsVec3 := ⟨.num v.x, .num v.y, .num v.z⟩

/-- Lift an exact patch to a JS-number patch. -/
def liftPatch (p : BezierPatchInstance) : BezierPatchInstanceJ where
  p00 := liftV3 p.p00
  p01 := liftV3 p.p01
  p10 := liftV3 p.p10
  p11 := liftV3 p.p11
  du00 := liftV3 p.du00
  du01 := liftV3 p.du01
  du10 := liftV3 p.du10
  du11 := liftV3 p.du11
  dv00 := liftV3 p.dv00
  dv01 := liftV3 p.dv01
  dv10 := liftV3 p.dv10
  dv11 := liftV3 p.dv11
  duv00 := liftV3 p.duv00
  duv01 := liftV3 p.duv01
  duv10 := liftV3 p.duv10
  duv11 := liftV3 p.duv11
  maxDepth := p.maxDepth.map .num
  pixelEpsilon := p.pixelEpsilon.map .num

/-- The JS plane-value dot(n, p) of a JS-number point against an exact
normal, used to state coplanarity of converter outputs. -/
def jdot (n : V3) (p : JsVec3) : JsNum :=
  jadd (jadd (jmul (.num n.x) p.x) (jmul (.num n.y) p.y)) (jmul (.num n.z) p.z)

/-- Componentwise finiteness of a JS vector. -/
def finV (v : JsVec3) : Bool := isFiniteJ v.x && isFiniteJ v.y && isFiniteJ v.z

/-- Componentwise JS comparison a <= b on vectors. -/
def vleJ (a b : JsVec3) : Bool := jle a.x b.x && jle a.y b.y && jle a.z b.z

/-! ### Concrete inputs used by witnesses and counterexamples.
The storage limit is the device-dependent maxStorageBufferBindingSize the
code reads at startup; small sample values keep the arithmetic readable. -/

/-- The empty scene, as a base for small test scenes. -/
def emptyScene : ScenePrimitiveState := ⟨[], [], [], [], [], [], [], [], []⟩

/-- A scene holding one degenerate sphere with radius -1. -/
def degenerateSphereScene : ScenePrimitiveState :=
  { emptyScene with spheres := [⟨⟨1, 2, 3⟩, -1⟩] }

/-- The build output expected for degenerateSphereScene at storage limit
1024: the degenerate sphere is packed (not dropped), with radius clamped
to 0. -/
def degenerateSphereData : PrimitiveAccelerationData where
  primitiveCount := 1
  counts := ⟨1, 0, 0, 0, 0, 0, 0, 0, 0⟩
  primitiveRefs := [⟨0, 0, 0⟩]
  indices := [0]
  sphereData := [[1, 2, 3, 0]]
  analyticData := []
  bezierData := []
  aabbData := [⟨⟨1, 2, 3⟩, ⟨1, 2, 3⟩⟩]

/-- A scene holding one cylinder whose orientation pair is parallel
(ydir = 2 * xdir). -/
def parallelPairScene : ScenePrimitiveState :=
  { emptyScene with cylinders := [⟨⟨0, 0, 0⟩, ⟨1, 0, 0⟩, ⟨2, 0, 0⟩, 1, 2, 360⟩] }

/-- A scene with two ordinary spheres, used as the consistency witness. -/
def twoSphereScene : ScenePrimitiveState :=
  { emptyScene with spheres := [⟨⟨0, 0, 0⟩, 1⟩, ⟨⟨5, 0, 0⟩, 2⟩] }

/-- The build output expected for twoSphereScene at storage limit 1024. -/
def twoSphereData : PrimitiveAccelerationData where
  primitiveCount := 2
  counts := ⟨2, 0, 0, 0, 0, 0, 0, 0, 0⟩
  primitiveRefs := [⟨0, 0, 0⟩, ⟨0, 1, 0⟩]
  indices := [0, 1]
  sphereData := [[0, 0, 0, 1], [5, 0, 0, 2]]
  analyticData := []
  bezierData := []
  aabbData := [⟨⟨-1, -1, -1⟩, ⟨1, 1, 1⟩⟩, ⟨⟨3, -2, -2⟩, ⟨7, 2, 2⟩⟩]

/-- A Hermite patch whose vectors are all zero (tunables absent). -/
def zeroPatch : BezierPatchInstance :=
  ⟨⟨0,0,0⟩, ⟨0,0,0⟩, ⟨0,0,0⟩, ⟨0,0,0⟩, ⟨0,0,0⟩, ⟨0,0,0⟩, ⟨0,0,0⟩, ⟨0,0,0⟩,
   ⟨0,0,0⟩, ⟨0,0,0⟩, ⟨0,0,0⟩, ⟨0,0,0⟩, ⟨0,0,0⟩, ⟨0,0,0⟩, ⟨0,0,0⟩, ⟨0,0,0⟩,
   none, none⟩

/-- 35 unit spheres and 2 (zero) bezier patches: at a storage limit of 576
bytes this drives the primitive-ref truncation into the branch that only
partially truncates the bezier patches. -/
def overflowScene : ScenePrimitiveState :=
  { emptyScene with
      spheres := List.replicate 35 ⟨⟨0, 0, 0⟩, 1⟩
      bezierPatches := List.replicate 2 zeroPatch }

/-- An axis-aligned half cylinder: basis ((1,0,0), (0,1,0)), axis (0,0,1),
radius 1, height 2, sweep 180 degrees. -/
def halfCylAxisAligned : CylParams := ⟨⟨0, 0, 0⟩, ⟨1, 0, 0⟩, ⟨0, 1, 0⟩, 1, 2, 180⟩

/-- The same half cylinder with its in-plane basis rotated by 90 degrees:
basis ((0,1,0), (-1,0,0)), axis still (0,0,1). -/
def halfCylRotated : CylParams := ⟨⟨0, 0, 0⟩, ⟨0, 1, 0⟩, ⟨-1, 0, 0⟩, 1, 2, 180⟩

/-- A ray along the negative x axis from (5,0,0). -/
def rayFromX : V3 := ⟨5, 0, 0⟩

/-- Direction of rayFromX. -/
def rayFromXDir : V3 := ⟨-1, 0, 0⟩

/-- Control grid of the flat patch with P(u, v) = (u, v, 0) (cubic Bezier
linear precision: coordinates i/3 and j/3). -/
def flatPatchCP : Fin 4 → Fin 4 → V3 :=
  fun i j => ⟨((i : ℕ) : ℚ) / 3, ((j : ℕ) : ℚ) / 3, 0⟩

/-- A planar Hermite patch in the plane z = 0: corner positions on the unit
square, unit tangents in the plane, zero twists. -/
def planarPatch : BezierPatchInstance :=
  ⟨⟨0,0,0⟩, ⟨0,1,0⟩, ⟨1,0,0⟩, ⟨1,1,0⟩,
   ⟨1,0,0⟩, ⟨1,0,0⟩, ⟨1,0,0⟩, ⟨1,0,0⟩,
   ⟨0,1,0⟩, ⟨0,1,0⟩, ⟨0,1,0⟩, ⟨0,1,0⟩,
   ⟨0,0,0⟩, ⟨0,0,0⟩, ⟨0,0,0⟩, ⟨0,0,0⟩,
   none, none⟩

/-! ## Theorems -/

/-! ### Structure lemmas about the packing stage -/

theorem clampCount_le (L n f : ℕ) : clampCountForFloatStorage L n f ≤ n := by
  simp only [clampCountForFloatStorage]
  split
  · omega
  · split
    · omega
    · split <;> omega

theorem counts_get_set (c : PrimitiveCounts) (k1 k2 : PKind) (n : ℕ) :
    (c.set k1 n).get k2 = if k1 = k2 then n else c.get k2 := by
  cases k1 <;> cases k2 <;> simp [PrimitiveCounts.get, PrimitiveCounts.set]

theorem reduceInOrder_get_le (ord : List PKind) (c : PrimitiveCounts) (e : ℕ) (k : PKind) :
    (reduceInOrder ord c e).get k ≤ c.get k := by
  induction ord generalizing c e with
  | nil => simp [reduceInOrder]
  | cons k1 rest ih =>
    simp only [reduceInOrder]
    split
    · exact le_refl _
    · refine le_trans (ih _ _) ?_
      rw [counts_get_set]
      split
      · rename_i h
        subst h
        exact Nat.sub_le _ _
      · exact le_refl _

theorem analyticTruncatedCounts_get_le (L : ℕ) (prims : ScenePrimitiveState) (k : PKind) :
    (analyticTruncatedCounts L prims).get k ≤ (clampedCounts L prims).get k := by
  simp only [analyticTruncatedCounts]
  split
  · split
    · cases k <;> simp [PrimitiveCounts.get]
    · exact reduceInOrder_get_le _ _ _ _
  · exact le_refl _

theorem finalCounts_get_le (L : ℕ) (prims : ScenePrimitiveState) (k : PKind) :
    ((finalCountsAndTarget L prims).1).get k ≤ (analyticTruncatedCounts L prims).get k := by
  simp only [finalCountsAndTarget]
  split
  · split
    · cases k <;> simp [PrimitiveCounts.get]
    · exact reduceInOrder_get_le _ _ _ _
  · exact le_refl _

theorem clampedCounts_le_kindLen (L : ℕ) (prims : ScenePrimitiveState) (k : PKind) :
    (clampedCounts L prims).get k ≤ kindLen prims k := by
  cases k <;> exact clampCount_le _ _ _

theorem finalCounts_le_kindLen (L : ℕ) (prims : ScenePrimitiveState) (k : PKind) :
    ((finalCountsAndTarget L prims).1).get k ≤ kindLen prims k :=
  le_trans (finalCounts_get_le L prims k)
    (le_trans (analyticTruncatedCounts_get_le L prims k) (clampedCounts_le_kindLen L prims k))

theorem idxMapFrom_length {α β : Type} (f : ℕ → α → β) (s : ℕ) (l : List α) :
    (idxMapFrom f s l).length = l.length := by
  induction l generalizing s with
  | nil => rfl
  | cons a rest ih => simp [idxMapFrom, ih]

theorem idxMapFrom_getElem? {α β : Type} (f : ℕ → α → β) (s : ℕ) (l : List α) (i : ℕ) :
    (idxMapFrom f s l)[i]? = (l[i]?).map (f (s + i)) := by
  induction l generalizing s i with
  | nil => simp [idxMapFrom]
  | cons a rest ih =>
    cases i with
    | zero => simp [idxMapFrom]
    | succ n =>
      have harith : s + 1 + n = s + (n + 1) := by omega
      simp [idxMapFrom, ih (s + 1) n, harith]

theorem packedOfKind_length (sqrt : ℚ → ℚ) (prims : ScenePrimitiveState)
    (counts : PrimitiveCounts) (k : PKind) (h : counts.get k ≤ kindLen prims k) :
    (packedOfKind sqrt prims counts k).length = counts.get k := by
  cases k <;>
    simp only [packedOfKind, kindLen, PrimitiveCounts.get, List.length_map,
      List.length_take] at h ⊢ <;>
    omega

theorem entriesOfKind_length (sqrt : ℚ → ℚ) (prims : ScenePrimitiveState)
    (counts : PrimitiveCounts) (k : PKind) (h : counts.get k ≤ kindLen prims k) :
    (entriesOfKind sqrt prims counts k).length = counts.get k := by
  rw [entriesOfKind, idxMapFrom_length, packedOfKind_length sqrt prims counts k h]

theorem getElem?_append_skip {α : Type} {l1 l2 : List α} {n i : ℕ} (h : l1.length = n) :
    (l1 ++ l2)[n + i]? = l2[i]? := by
  rw [List.getElem?_append_right (by omega)]
  congr 1
  omega

theorem entriesOfKind_getElem? (sqrt : ℚ → ℚ) (prims : ScenePrimitiveState)
    (counts : PrimitiveCounts) (k : PKind) (i : ℕ) :
    (entriesOfKind sqrt prims counts k)[i]? =
      ((packedOfKind sqrt prims counts k)[i]?).map
        (fun pa => (⟨typeId k, i, analyticBaseOf counts k⟩, pa.2)) := by
  rw [entriesOfKind, idxMapFrom_getElem?]
  simp

theorem pushesList_getElem? (sqrt : ℚ → ℚ) (prims : ScenePrimitiveState)
    (counts : PrimitiveCounts)
    (hlen : ∀ k, (entriesOfKind sqrt prims counts k).length = counts.get k)
    (k : PKind) (i : ℕ) (hi : i < counts.get k) :
    (pushesList sqrt prims counts)[geomBase counts k + i]? =
      (entriesOfKind sqrt prims counts k)[i]? := by
  have hs := hlen .sphere
  have hcy := hlen .cylinder
  have hci := hlen .circle
  have hel := hlen .ellipse
  have hco := hlen .cone
  have hli := hlen .line
  have hto := hlen .torus
  have hpl := hlen .plane
  simp only [PrimitiveCounts.get] at hs hcy hci hel hco hli hto hpl
  cases k <;> simp only [PrimitiveCounts.get] at hi <;>
    simp only [pushesList, geomBase, Nat.zero_add]
  case sphere =>
    rw [List.getElem?_append_left (by omega)]
  case cylinder =>
    rw [getElem?_append_skip hs, List.getElem?_append_left (by omega)]
  case circle =>
    have h : counts.sphere + counts.cylinder + i = counts.sphere + (counts.cylinder + i) := by
      omega
    rw [h, getElem?_append_skip hs, getElem?_append_skip hcy,
      List.getElem?_append_left (by omega)]
  case ellipse =>
    have h : counts.sphere + counts.cylinder + counts.circle + i =
        counts.sphere + (counts.cylinder + (counts.circle + i)) := by omega
    rw [h, getElem?_append_skip hs, getElem?_append_skip hcy, getElem?_append_skip hci,
      List.getElem?_append_left (by omega)]
  case cone =>
    have h : counts.sphere + counts.cylinder + counts.circle + counts.ellipse + i =
        counts.sphere + (counts.cylinder + (counts.circle + (counts.ellipse + i))) := by omega
    rw [h, getElem?_append_skip hs, getElem?_append_skip hcy, getElem?_append_skip hci,
      getElem?_append_skip hel, List.getElem?_append_left (by omega)]
  case line =>
    have h : counts.sphere + counts.cylinder + counts.circle + counts.ellipse + counts.cone + i =
        counts.sphere + (counts.cylinder + (counts.circle + (counts.ellipse +
          (counts.cone + i)))) := by omega
    rw [h, getElem?_append_skip hs, getElem?_append_skip hcy, getElem?_append_skip hci,
      getElem?_append_skip hel, getElem?_append_skip hco,
      List.getElem?_append_left (by omega)]
  case torus =>
    have h : counts.sphere + counts.cylinder + counts.circle + counts.ellipse + counts.cone +
        counts.line + i =
        counts.sphere + (counts.cylinder + (counts.circle + (counts.ellipse +
          (counts.cone + (counts.line + i))))) := by omega
    rw [h, getElem?_append_skip hs, getElem?_append_skip hcy, getElem?_append_skip hci,
      getElem?_append_skip hel, getElem?_append_skip hco, getElem?_append_skip hli,
      List.getElem?_append_left (by omega)]
  case plane =>
    have h : counts.sphere + counts.cylinder + counts.circle + counts.ellipse + counts.cone +
        counts.line + counts.torus + i =
        counts.sphere + (counts.cylinder + (counts.circle + (counts.ellipse +
          (counts.cone + (counts.line + (counts.torus + i)))))) := by omega
    rw [h, getElem?_append_skip hs, getElem?_append_skip hcy, getElem?_append_skip hci,
      getElem?_append_skip hel, getElem?_append_skip hco, getElem?_append_skip hli,
      getElem?_append_skip hto, List.getElem?_append_left (by omega)]
  case bezier =>
    have h : counts.sphere + counts.cylinder + counts.circle + counts.ellipse + counts.cone +
        counts.line + counts.torus + counts.plane + i =
        counts.sphere + (counts.cylinder + (counts.circle + (counts.ellipse +
          (counts.cone + (counts.line + (counts.torus + (counts.plane + i))))))) := by omega
    rw [h, getElem?_append_skip hs, getElem?_append_skip hcy, getElem?_append_skip hci,
      getElem?_append_skip hel, getElem?_append_skip hco, getElem?_append_skip hli,
      getElem?_append_skip hto, getElem?_append_skip hpl]

theorem analyticDataOf_getElem? (sqrt : ℚ → ℚ) (prims : ScenePrimitiveState)
    (counts : PrimitiveCounts)
    (hlen : ∀ k, (packedOfKind sqrt prims counts k).length = counts.get k)
    (k : PKind) (i : ℕ) (hi : i < counts.get k)
    (hk1 : k ≠ .sphere) (hk2 : k ≠ .bezier) :
    (analyticDataOf sqrt prims counts)[analyticBaseOf counts k + i]? =
      ((packedOfKind sqrt prims counts k)[i]?).map (·.1) := by
  have hcy : ((packedOfKind sqrt prims counts .cylinder).map (·.1)).length = counts.cylinder := by
    rw [List.length_map]; exact hlen .cylinder
  have hci : ((packedOfKind sqrt prims counts .circle).map (·.1)).length = counts.circle := by
    rw [List.length_map]; exact hlen .circle
  have hel : ((packedOfKind sqrt prims counts .ellipse).map (·.1)).length = counts.ellipse := by
    rw [List.length_map]; exact hlen .ellipse
  have hco : ((packedOfKind sqrt prims counts .cone).map (·.1)).length = counts.cone := by
    rw [List.length_map]; exact hlen .cone
  have hli : ((packedOfKind sqrt prims counts .line).map (·.1)).length = counts.line := by
    rw [List.length_map]; exact hlen .line
  have hto : ((packedOfKind sqrt prims counts .torus).map (·.1)).length = counts.torus := by
    rw [List.length_map]; exact hlen .torus
  cases k
  case sphere => exact absurd rfl hk1
  case bezier => exact absurd rfl hk2
  all_goals simp only [PrimitiveCounts.get] at hi
  all_goals simp only [analyticDataOf, analyticBaseOf, Nat.zero_add]
  case cylinder =>
    rw [List.getElem?_append_left (by omega), List.getElem?_map]
  case circle =>
    rw [getElem?_append_skip hcy, List.getElem?_append_left (by omega), List.getElem?_map]
  case ellipse =>
    have h : counts.cylinder + counts.circle + i = counts.cylinder + (counts.circle + i) := by
      omega
    rw [h, getElem?_append_skip hcy, getElem?_append_skip hci,
      List.getElem?_append_left (by omega), List.getElem?_map]
  case cone =>
    have h : counts.cylinder + counts.circle + counts.ellipse + i =
        counts.cylinder + (counts.circle + (counts.ellipse + i)) := by omega
    rw [h, getElem?_append_skip hcy, getElem?_append_skip hci, getElem?_append_skip hel,
      List.getElem?_append_left (by omega), List.getElem?_map]
  case line =>
    have h : counts.cylinder + counts.circle + counts.ellipse + counts.cone + i =
        counts.cylinder + (counts.circle + (counts.ellipse + (counts.cone + i))) := by omega
    rw [h, getElem?_append_skip hcy, getElem?_append_skip hci, getElem?_append_skip hel,
      getElem?_append_skip hco, List.getElem?_append_left (by omega), List.getElem?_map]
  case torus =>
    have h : counts.cylinder + counts.circle + counts.ellipse + counts.cone + counts.line + i =
        counts.cylinder + (counts.circle + (counts.ellipse + (counts.cone +
          (counts.line + i)))) := by omega
    rw [h, getElem?_append_skip hcy, getElem?_append_skip hci, getElem?_append_skip hel,
      getElem?_append_skip hco, getElem?_append_skip hli,
      List.getElem?_append_left (by omega), List.getElem?_map]
  case plane =>
    have h : counts.cylinder + counts.circle + counts.ellipse + counts.cone + counts.line +
        counts.torus + i =
        counts.cylinder + (counts.circle + (counts.ellipse + (counts.cone +
          (counts.line + (counts.torus + i))))) := by omega
    rw [h, getElem?_append_skip hcy, getElem?_append_skip hci, getElem?_append_skip hel,
      getElem?_append_skip hco, getElem?_append_skip hli, getElem?_append_skip hto,
      List.getElem?_map]

theorem build_ok_fields (sqrt : ℚ → ℚ) (L : ℕ) (prims : ScenePrimitiveState)
    (d : PrimitiveAccelerationData)
    (hb : buildPrimitiveAcceleration sqrt L prims = .ok d) :
    d.counts = (finalCountsAndTarget L prims).1 ∧
    d.primitiveRefs =
      ((pushesList sqrt prims (finalCountsAndTarget L prims).1).take
        (finalCountsAndTarget L prims).2).map (·.1) ∧
    d.aabbData =
      ((pushesList sqrt prims (finalCountsAndTarget L prims).1).take
        (finalCountsAndTarget L prims).2).map (·.2) ∧
    d.sphereData = (packedOfKind sqrt prims (finalCountsAndTarget L prims).1 .sphere).map (·.1) ∧
    d.analyticData = analyticDataOf sqrt prims (finalCountsAndTarget L prims).1 ∧
    d.bezierData = (packedOfKind sqrt prims (finalCountsAndTarget L prims).1 .bezier).map (·.1) ∧
    d.primitiveCount =
      ((pushesList sqrt prims (finalCountsAndTarget L prims).1).take
        (finalCountsAndTarget L prims).2).length := by
  simp only [buildPrimitiveAcceleration] at hb
  split at hb
  · exact absurd hb (by simp)
  · rw [Except.ok.injEq] at hb
    subst hb
    exact ⟨rfl, rfl, rfl, rfl, rfl, rfl, rfl⟩

theorem kindPacked_eq_getElem? (sqrt : ℚ → ℚ) (prims : ScenePrimitiveState)
    (counts : PrimitiveCounts) (k : PKind) (i : ℕ) :
    (packedOfKind sqrt prims counts k)[i]? = kindPacked sqrt prims counts k i := by
  cases k <;> simp only [packedOfKind, kindPacked, List.getElem?_map]

/-- The heart of the geometry-index consistency claim: in a successful build,
the primitive at per-type slot i of kind k occupies geometry index
geomBase + i, its primitive-reference entry records (typeId k, i, analytic
base offset of k), the AABB at that geometry index is the one its pack
function computes, and the parameter record at analyticBaseOffset + i of the
matching buffer is the one its pack function computes. -/
theorem build_kind_consistent (sqrt : ℚ → ℚ) (L : ℕ) (prims : ScenePrimitiveState)
    (d : PrimitiveAccelerationData) (hb : buildPrimitiveAcceleration sqrt L prims = .ok d)
    (k : PKind) (i : ℕ) (hi : i < d.counts.get k)
    (hg : geomBase d.counts k + i < d.primitiveCount) :
    d.primitiveRefs[geomBase d.counts k + i]? =
      some ⟨typeId k, i, analyticBaseOf d.counts k⟩ ∧
    ∃ pa : List ℚ × Aabb,
      kindPacked sqrt prims d.counts k i = some pa ∧
      d.aabbData[geomBase d.counts k + i]? = some pa.2 ∧
      paramRecordAt d k (analyticBaseOf d.counts k + i) = some pa.1 := by
  obtain ⟨hc, hrefs, haabb, hsph, hana, hbez, hcount⟩ := build_ok_fields sqrt L prims d hb
  have hle : ∀ j, ((finalCountsAndTarget L prims).1).get j ≤ kindLen prims j :=
    finalCounts_le_kindLen L prims
  have hlenp : ∀ j, (packedOfKind sqrt prims (finalCountsAndTarget L prims).1 j).length =
      ((finalCountsAndTarget L prims).1).get j :=
    fun j => packedOfKind_length sqrt prims _ j (hle j)
  have hlene : ∀ j, (entriesOfKind sqrt prims (finalCountsAndTarget L prims).1 j).length =
      ((finalCountsAndTarget L prims).1).get j :=
    fun j => entriesOfKind_length sqrt prims _ j (hle j)
  rw [hc] at hi hg ⊢
  rw [hcount, List.length_take] at hg
  have hgt : geomBase (finalCountsAndTarget L prims).1 k + i < (finalCountsAndTarget L prims).2 := by
    omega
  have hpacked : i < (packedOfKind sqrt prims (finalCountsAndTarget L prims).1 k).length := by
    rw [hlenp k]; exact hi
  have hpa : (packedOfKind sqrt prims (finalCountsAndTarget L prims).1 k)[i]? =
      some (packedOfKind sqrt prims (finalCountsAndTarget L prims).1 k)[i] :=
    List.getElem?_eq_getElem hpacked
  have hpush : (pushesList sqrt prims (finalCountsAndTarget L prims).1)[geomBase
      (finalCountsAndTarget L prims).1 k + i]? =
      (entriesOfKind sqrt prims (finalCountsAndTarget L prims).1 k)[i]? :=
    pushesList_getElem? sqrt prims _ hlene k i hi
  have htake : ((pushesList sqrt prims (finalCountsAndTarget L prims).1).take
      (finalCountsAndTarget L prims).2)[geomBase (finalCountsAndTarget L prims).1 k + i]? =
      (pushesList sqrt prims (finalCountsAndTarget L prims).1)[geomBase
        (finalCountsAndTarget L prims).1 k + i]? :=
    List.getElem?_take_of_lt hgt
  have hentry := entriesOfKind_getElem? sqrt prims (finalCountsAndTarget L prims).1 k i
  refine ⟨?_, (packedOfKind sqrt prims (finalCountsAndTarget L prims).1 k)[i], ?_, ?_, ?_⟩
  · rw [hrefs, List.getElem?_map, htake, hpush, hentry, hpa]
    rfl
  · rw [← kindPacked_eq_getElem?, hpa]
  · rw [haabb, List.getElem?_map, htake, hpush, hentry, hpa]
    rfl
  · cases k
    case sphere =>
      simp only [paramRecordAt, analyticBaseOf, Nat.zero_add]
      rw [hsph, List.getElem?_map, hpa]
      rfl
    case bezier =>
      simp only [paramRecordAt, analyticBaseOf, Nat.zero_add]
      rw [hbez, List.getElem?_map, hpa]
      rfl
    all_goals
      simp only [paramRecordAt]
      rw [hana, analyticDataOf_getElem? sqrt prims _ hlenp _ i hi (by simp) (by simp), hpa]
      rfl

theorem maxQ_eq_max (a b : ℚ) : maxQ a b = max a b := by
  rw [maxQ, max_def]

theorem minQ_eq_min (a b : ℚ) : minQ a b = min a b := by
  rw [minQ, min_def]

theorem absQ_eq_abs (a : ℚ) : absQ a = |a| := by
  rcases lt_or_le a 0 with h | h
  · simp [absQ, h, abs_of_neg h]
  · simp [absQ, not_lt.mpr h, abs_of_nonneg h]

theorem dotVec3_comm (a b : V3) : dotVec3 a b = dotVec3 b a := by
  simp only [dotVec3]; ring

theorem normSq_scaleVec3 (v : V3) (c : ℚ) :
    normSqVec3 (scaleVec3 v c) = normSqVec3 v * (c * c) := by
  simp only [normSqVec3, dotVec3, scaleVec3]; ring

theorem dotVec3_scale_right (a v : V3) (c : ℚ) :
    dotVec3 a (scaleVec3 v c) = dotVec3 a v * c := by
  simp only [dotVec3, scaleVec3]; ring

theorem dotVec3_gramStep (nx y : V3) :
    dotVec3 nx (subtractVec3 y (scaleVec3 nx (dotVec3 y nx))) =
      dotVec3 nx y - dotVec3 y nx * dotVec3 nx nx := by
  simp only [dotVec3, subtractVec3, scaleVec3]; ring

theorem normalizeVec3_of_big (sqrt : ℚ → ℚ) (v : V3)
    (h : ¬ sqrt (normSqVec3 v) < 1 / 100000) :
    normalizeVec3 sqrt v = scaleVec3 v (sqrt (normSqVec3 v))⁻¹ := by
  have hv : v.x * v.x + v.y * v.y + v.z * v.z = normSqVec3 v := rfl
  simp only [normalizeVec3, hv, if_neg h]

theorem sqrt_big_ne_zero (sqrt : ℚ → ℚ) (q : ℚ) (h : ¬ sqrt q < 1 / 100000) :
    sqrt q ≠ 0 := by
  intro h0
  exact h (by rw [h0]; norm_num)

/-! ### Claim C1 -/

/-- Claim C1 (confirmed): geometry-index consistency within one build.  For
every primitive packed by a successful buildPrimitiveAcceleration -- the
instance at per-type slot i of kind k, sitting at geometry index
geomBase counts k + i, with the per-kind bases laid out contiguously in the
fixed packing order sphere, cylinder, circle, ellipse, cone, line, torus,
plane, bezier -- the primitive-reference buffer records exactly
(typeId k, indexInType = i, analyticBaseOffset of k), the AABB buffer at the
same geometry index holds the box computed from that very instance, and the
parameter record at analyticBaseOffset + indexInType of the per-type/packed
parameter array holds the parameters computed from that very instance. -/
theorem c1_geometry_index_consistency (sqrt : ℚ → ℚ) (L : ℕ) (prims : ScenePrimitiveState)
    (d : PrimitiveAccelerationData) (hb : buildPrimitiveAcceleration sqrt L prims = .ok d)
    (k : PKind) (i : ℕ) (hi : i < d.counts.get k)
    (hg : geomBase d.counts k + i < d.primitiveCount) :
    d.primitiveRefs[geomBase d.counts k + i]? =
      some ⟨typeId k, i, analyticBaseOf d.counts k⟩ ∧
    ∃ pa : List ℚ × Aabb,
      kindPacked sqrt prims d.counts k i = some pa ∧
      d.aabbData[geomBase d.counts k + i]? = some pa.2 ∧
      paramRecordAt d k (analyticBaseOf d.counts k + i) = some pa.1 :=
  build_kind_consistent sqrt L prims d hb k i hi hg

/-- Witness for C1: in the two-sphere build, the second sphere sits at
geometry index 1 with a consistent reference, AABB and parameter record. -/
theorem c1_geometry_index_consistency_witness :
    twoSphereData.primitiveRefs[1]? = some ⟨typeId .sphere, 1, 0⟩ ∧
    (∃ pa : List ℚ × Aabb,
      kindPacked Rat.sqrt twoSphereScene twoSphereData.counts .sphere 1 = some pa ∧
      twoSphereData.aabbData[1]? = some pa.2 ∧
      paramRecordAt twoSphereData .sphere 1 = some pa.1) := by
  have hb : buildPrimitiveAcceleration Rat.sqrt 1024 twoSphereScene = .ok twoSphereData := by
    with_unfolding_all decide
  have h := c1_geometry_index_consistency Rat.sqrt 1024 twoSphereScene twoSphereData hb
    .sphere 1 (by with_unfolding_all decide) (by with_unfolding_all decide)
  exact ⟨h.1, h.2⟩

/-! ### Claim C2 -/

/-- Claim C2 (amended): a sphere with a degenerate size parameter is NOT
dropped.  The sphere parameter buffer of a successful build has exactly one
record per retained sphere (the count is reduced only by the storage-limit
clamp, never by degeneracy), and the record of sphere i is its center with
the radius clamped through Math.max(0, radius) -- so radius -1 packs as an
entry with radius 0 rather than producing zero entries
(see c2_counterexample for the concrete refutation of the original claim). -/
theorem c2_degenerate_sphere_packed (sqrt : ℚ → ℚ) (L : ℕ) (prims : ScenePrimitiveState)
    (d : PrimitiveAccelerationData)
    (hb : buildPrimitiveAcceleration sqrt L prims = .ok d) :
    d.sphereData.length = d.counts.sphere ∧
    ∀ i : ℕ, i < d.counts.sphere →
      ∃ s : SphereInstance, prims.spheres[i]? = some s ∧
        d.sphereData[i]? = some [s.center.x, s.center.y, s.center.z, maxQ 0 s.radius] := by
  obtain ⟨hc, _, _, hsph, _, _, _⟩ := build_ok_fields sqrt L prims d hb
  have hle := finalCounts_le_kindLen L prims .sphere
  have hlen : d.sphereData.length = d.counts.sphere := by
    rw [hsph, List.length_map, hc]
    exact packedOfKind_length sqrt prims _ .sphere hle
  refine ⟨hlen, fun i hi => ?_⟩
  rw [hc] at hi
  simp only [kindLen, PrimitiveCounts.get] at hle
  have hilen : i < prims.spheres.length := lt_of_lt_of_le hi hle
  refine ⟨prims.spheres[i], List.getElem?_eq_getElem hilen, ?_⟩
  rw [hsph, List.getElem?_map]
  simp only [packedOfKind]
  rw [List.getElem?_map, List.getElem?_take_of_lt hi, List.getElem?_eq_getElem hilen]
  rfl

/-- Witness for C2: the degenerate sphere with radius -1 is packed as one
record [1, 2, 3, 0]. -/
theorem c2_degenerate_sphere_packed_witness :
    ∃ s : SphereInstance, degenerateSphereScene.spheres[0]? = some s ∧
      degenerateSphereData.sphereData[0]? =
        some [s.center.x, s.center.y, s.center.z, maxQ 0 s.radius] := by
  have hb : buildPrimitiveAcceleration Rat.sqrt 1024 degenerateSphereScene =
      .ok degenerateSphereData := by
    with_unfolding_all decide
  exact (c2_degenerate_sphere_packed Rat.sqrt 1024 degenerateSphereScene
    degenerateSphereData hb).2 0 (by with_unfolding_all decide)

/-- Counterexample to C2 as stated: the degenerate sphere with radius -1
produces ONE sphere record ([1,2,3,0], radius clamped to 0) and ONE AABB
(the zero-size box at its center) in the built buffers, not zero entries. -/
theorem c2_counterexample :
    (buildPrimitiveAcceleration Rat.sqrt 1024 degenerateSphereScene).map
      (fun d => (d.sphereData, d.aabbData)) =
      .ok ([[1, 2, 3, 0]], [⟨⟨1, 2, 3⟩, ⟨1, 2, 3⟩⟩]) := by
  with_unfolding_all decide

/-! ### Claim C4 -/

/-- Claim C4 (code_bug evidence): capacity overflow CAN raise an error.
With a storage limit of 576 bytes (so maxPrimitiveRefs = 36), a scene of 35
spheres and 2 bezier patches triggers the primitive-ref truncation with
excess 1: the reduce order cuts the bezier count from 2 to 1, but the
recomputed primitiveCount (pipeline.ts lines 1050-1058) omits counts.bezier,
so the remaining bezier patch gets no primitive-reference entry and
validatePrimitiveRefTypes throws -- contradicting the never-crash policy the
spec states.  The model evaluates the build at that input to the throw. -/
theorem c4_truncation_validation_throws :
    buildPrimitiveAcceleration Rat.sqrt 576 overflowScene =
      .error "PrimitiveRef buffer too small when validating bezier" := by
  with_unfolding_all decide

/-! ### Claim C3 -/

/-- Claim C3 (amended): whenever the two normalizations inside the packing
layer's orthonormalizePair are non-degenerate -- the computed length of the
input xdir and of its Gram-Schmidt residual are at least 1e-5 and square back
to the squared norms (i.e. the sqrt primitive is exact there) -- the stored
basis is exactly orthonormal: both vectors have squared norm 1 and their dot
product is 0.  (The original claim, for every orientation pair including
parallel and zero-length ones, is refuted by c3_counterexample: the packing
layer's orthonormalizePair has no fallback axis and stores a zero vector.) -/
theorem c3_reorthonormalized_basis (sqrt : ℚ → ℚ) (xdirIn ydirIn : V3)
    (hx2 : sqrt (normSqVec3 xdirIn) * sqrt (normSqVec3 xdirIn) = normSqVec3 xdirIn)
    (hxlen : ¬ sqrt (normSqVec3 xdirIn) < 1 / 100000)
    (hy2 : sqrt (normSqVec3 (gramResidual sqrt xdirIn ydirIn)) *
        sqrt (normSqVec3 (gramResidual sqrt xdirIn ydirIn)) =
        normSqVec3 (gramResidual sqrt xdirIn ydirIn))
    (hylen : ¬ sqrt (normSqVec3 (gramResidual sqrt xdirIn ydirIn)) < 1 / 100000) :
    normSqVec3 (orthonormalizePair sqrt xdirIn ydirIn).1 = 1 ∧
    normSqVec3 (orthonormalizePair sqrt xdirIn ydirIn).2 = 1 ∧
    dotVec3 (orthonormalizePair sqrt xdirIn ydirIn).1
      (orthonormalizePair sqrt xdirIn ydirIn).2 = 0 := by
  have hxne := sqrt_big_ne_zero sqrt _ hxlen
  have hyne := sqrt_big_ne_zero sqrt _ hylen
  have hx : (orthonormalizePair sqrt xdirIn ydirIn).1 =
      scaleVec3 xdirIn (sqrt (normSqVec3 xdirIn))⁻¹ := by
    simp only [orthonormalizePair, normalizeVec3_of_big sqrt _ hxlen]
  have hy : (orthonormalizePair sqrt xdirIn ydirIn).2 =
      scaleVec3 (gramResidual sqrt xdirIn ydirIn)
        (sqrt (normSqVec3 (gramResidual sqrt xdirIn ydirIn)))⁻¹ := by
    simp only [orthonormalizePair, normalizeVec3_of_big sqrt _ hylen]
  have h1 : normSqVec3 (orthonormalizePair sqrt xdirIn ydirIn).1 = 1 := by
    rw [hx, normSq_scaleVec3]
    set s := sqrt (normSqVec3 xdirIn) with hs
    rw [← hx2]
    field_simp
  refine ⟨h1, ?_, ?_⟩
  · rw [hy, normSq_scaleVec3]
    set s := sqrt (normSqVec3 (gramResidual sqrt xdirIn ydirIn)) with hs
    rw [← hy2]
    field_simp
  · have hres : gramResidual sqrt xdirIn ydirIn =
        subtractVec3 ydirIn
          (scaleVec3 (orthonormalizePair sqrt xdirIn ydirIn).1
            (dotVec3 ydirIn (orthonormalizePair sqrt xdirIn ydirIn).1)) := by
      simp only [gramResidual, orthonormalizePair]
    rw [hy, dotVec3_scale_right, hres, dotVec3_gramStep]
    have hnn : dotVec3 (orthonormalizePair sqrt xdirIn ydirIn).1
        (orthonormalizePair sqrt xdirIn ydirIn).1 = 1 := h1
    rw [hnn, dotVec3_comm ydirIn]
    ring

/-- Witness for C3: a concrete non-orthogonal pair ((1,0,0), (3,4,0)) whose
normalizations are exact (the consulted square roots are of 1 and 16). -/
theorem c3_reorthonormalized_basis_witness :
    normSqVec3 (orthonormalizePair Rat.sqrt ⟨1, 0, 0⟩ ⟨3, 4, 0⟩).1 = 1 ∧
    normSqVec3 (orthonormalizePair Rat.sqrt ⟨1, 0, 0⟩ ⟨3, 4, 0⟩).2 = 1 ∧
    dotVec3 (orthonormalizePair Rat.sqrt ⟨1, 0, 0⟩ ⟨3, 4, 0⟩).1
      (orthonormalizePair Rat.sqrt ⟨1, 0, 0⟩ ⟨3, 4, 0⟩).2 = 0 :=
  c3_reorthonormalized_basis Rat.sqrt ⟨1, 0, 0⟩ ⟨3, 4, 0⟩
    (by with_unfolding_all decide) (by with_unfolding_all decide)
    (by with_unfolding_all decide) (by with_unfolding_all decide)

/-- Counterexample to C3 as stated: a cylinder with the parallel pair
xdir = (1,0,0), ydir = (2,0,0) is packed with the zero vector stored as its
ydir (the ydir slots 8..10 of its analytic record are 0), so the stored basis
has |ydir| = 0, not approximately 1. -/
theorem c3_counterexample :
    (buildPrimitiveAcceleration Rat.sqrt 1024 parallelPairScene).map
      (fun d => d.analyticData) = .ok [[0, 0, 0, 1, 1, 0, 0, 2, 0, 0, 0, 360]] ∧
    normSqVec3 ⟨0, 0, 0⟩ = 0 := by
  constructor
  · with_unfolding_all decide
  · with_unfolding_all decide

/-! ### Claim C6 -/

theorem cylSideCandidate_inv (sqrt : ℚ → ℚ) (atan2deg : ℚ → ℚ → ℚ) (p : CylParams)
    (ro rd : V3) (nearT tt : ℚ) (st : ℚ × Int) (hang : p.angleDeg < 360)
    (hst : 0 ≤ st.2 → cylCodeAzimuth sqrt atan2deg p ro rd st.1 ≤ p.angleDeg) :
    0 ≤ (cylSideCandidate atan2deg p.angleDeg nearT (cylinderFrame sqrt p ro rd) tt st).2 →
      cylCodeAzimuth sqrt atan2deg p ro rd
        (cylSideCandidate atan2deg p.angleDeg nearT (cylinderFrame sqrt p ro rd) tt st).1 ≤
        p.angleDeg := by
  simp only [cylSideCandidate]
  split
  · exact hst
  · split
    · exact hst
    · split
      · exact hst
      · rename_i hno
        intro _
        simp only [cylCodeAzimuth]
        exact not_lt.mp (fun h => hno ⟨hang, h⟩)

theorem cylCapCandidate_inv (sqrt : ℚ → ℚ) (atan2deg : ℚ → ℚ → ℚ) (p : CylParams)
    (ro rd : V3) (nearT radius tCap : ℚ) (kind : Int) (st : ℚ × Int)
    (hang : p.angleDeg < 360)
    (hst : 0 ≤ st.2 → cylCodeAzimuth sqrt atan2deg p ro rd st.1 ≤ p.angleDeg) :
    0 ≤ (cylCapCandidate atan2deg p.angleDeg nearT radius (cylinderFrame sqrt p ro rd)
        tCap kind st).2 →
      cylCodeAzimuth sqrt atan2deg p ro rd
        (cylCapCandidate atan2deg p.angleDeg nearT radius (cylinderFrame sqrt p ro rd)
          tCap kind st).1 ≤ p.angleDeg := by
  simp only [cylCapCandidate]
  split
  · exact hst
  · split
    · split
      · rename_i hacc
        intro _
        simp only [cylCodeAzimuth]
        exact not_lt.mp (fun h => hacc ⟨hang, h⟩)
      · exact hst
    · exact hst

/-- Claim C6 (amended): partial-revolution rejection holds for the azimuth
value the kernel actually computes.  For every cylinder with angleDeg < 360
(in particular 180), every candidate -- lateral or end cap -- whose wrapped
azimuth exceeds angleDeg is rejected, so any reported hit satisfies
cylCodeAzimuth <= angleDeg.  The azimuth the code computes, however, is
atan2 of the WORLD x and y components of the axis-perpendicular offset
(degrees(atan(pLocal.y, pLocal.x))), not of its coordinates in the local
(xdir, ydir) frame as the claim words it; the two agree for the canonical
basis ((1,0,0),(0,1,0)) with axis (0,0,1) but differ for rotated bases
(see c6_counterexample). -/
theorem c6_partial_revolution_rejection (sqrt : ℚ → ℚ) (atan2deg : ℚ → ℚ → ℚ)
    (p : CylParams) (ro rd : V3) (nearT t : ℚ) (hang : p.angleDeg < 360)
    (hres : cylinderIntersect sqrt atan2deg p ro rd nearT = some t) :
    cylCodeAzimuth sqrt atan2deg p ro rd t ≤ p.angleDeg := by
  have hst0 : (0 : Int) ≤ (INF, (-1 : Int)).2 →
      cylCodeAzimuth sqrt atan2deg p ro rd (INF, (-1 : Int)).1 ≤ p.angleDeg := by
    intro h
    exact absurd h (by decide)
  have hside : 0 ≤ (cylinderSideState sqrt atan2deg p ro rd nearT).2 →
      cylCodeAzimuth sqrt atan2deg p ro rd (cylinderSideState sqrt atan2deg p ro rd nearT).1 ≤
        p.angleDeg := by
    simp only [cylinderSideState]
    split
    · split
      · refine cylSideCandidate_inv _ _ _ _ _ _ _ _ hang ?_
        refine cylSideCandidate_inv _ _ _ _ _ _ _ _ hang ?_
        exact hst0
      · exact hst0
    · exact hst0
  have hcap : 0 ≤ (cylinderCapState sqrt atan2deg p ro rd nearT).2 →
      cylCodeAzimuth sqrt atan2deg p ro rd (cylinderCapState sqrt atan2deg p ro rd nearT).1 ≤
        p.angleDeg := by
    simp only [cylinderCapState]
    split
    · refine cylCapCandidate_inv _ _ _ _ _ _ _ _ _ _ hang ?_
      refine cylCapCandidate_inv _ _ _ _ _ _ _ _ _ _ hang ?_
      exact hside
    · exact hside
  simp only [cylinderIntersect] at hres
  split at hres
  · rename_i hcond
    rw [Option.some.injEq] at hres
    rw [← hres]
    exact hcap hcond.1
  · exact absurd hres (by simp)

theorem c6_partial_revolution_rejection_witness :
    halfCylAxisAligned.angleDeg < 360 ∧
    cylinderIntersect Rat.sqrt atan2degAxis halfCylAxisAligned rayFromX rayFromXDir
      (1 / 1000) = some 4 ∧
    cylCodeAzimuth Rat.sqrt atan2degAxis halfCylAxisAligned rayFromX rayFromXDir 4 ≤
      halfCylAxisAligned.angleDeg :=
  ⟨by with_unfolding_all decide, by with_unfolding_all decide,
   c6_partial_revolution_rejection Rat.sqrt atan2degAxis halfCylAxisAligned rayFromX
     rayFromXDir (1 / 1000) 4 (by with_unfolding_all decide)
     (by with_unfolding_all decide)⟩

/-- Counterexample to claim C6 as worded: for the half cylinder (angleDeg =
180) with the rotated in-plane basis xdir = (0,1,0), ydir = (-1,0,0) and axis
(0,0,1), the ray from (5,0,0) along (-1,0,0) is ACCEPTED by the kernel at
t = 4 (the code's azimuth, computed from the world x/y components of pLocal,
is 0), even though the azimuth computed in the local (xdir, ydir) frame --
as the claim words it -- is 270 degrees, which exceeds angleDeg = 180, so
the hit would have to be rejected were the claim's azimuth the tested one. -/
theorem c6_counterexample :
    cylinderIntersect Rat.sqrt atan2degAxis halfCylRotated rayFromX rayFromXDir
      (1 / 1000) = some 4 ∧
    cylLocalFrameAzimuth Rat.sqrt atan2degAxis halfCylRotated rayFromX rayFromXDir 4 = 270 ∧
    ¬ (cylLocalFrameAzimuth Rat.sqrt atan2degAxis halfCylRotated rayFromX rayFromXDir 4 ≤
        halfCylRotated.angleDeg) := by
  refine ⟨by with_unfolding_all decide, by with_unfolding_all decide, ?_⟩
  with_unfolding_all decide

theorem newtonLoop_success (sqrt : ℚ → ℚ) (cp : Fin 4 → Fin 4 → V3) (ro rd : V3)
    (tMin tMax : ℚ) (n : ℕ) :
    ∀ u v t uf vf tf, newtonLoop sqrt cp ro rd tMin tMax n u v t = (true, uf, vf, tf) →
      newtonResidual sqrt cp ro rd uf vf tf < NEWTON_EPS_F ∧
      newtonInside tMin tMax uf vf tf = true := by
  induction n with
  | zero =>
    intro u v t uf vf tf h
    simp only [newtonLoop, Prod.mk.injEq] at h
    exact absurd h.1 Bool.false_ne_true
  | succ n ih =>
    intro u v t uf vf tf h
    simp only [newtonLoop] at h
    split at h
    · rename_i herr
      rw [Prod.mk.injEq, Prod.mk.injEq, Prod.mk.injEq] at h
      obtain ⟨hflag, hu, hv, ht⟩ := h
      subst hu; subst hv; subst ht
      refine ⟨?_, hflag⟩
      simp only [newtonResidual]
      exact herr
    · split at h
      · rw [Prod.mk.injEq] at h
        exact absurd h.1 Bool.false_ne_true
      · split at h
        · split at h
          · rename_i hacc
            rw [Prod.mk.injEq, Prod.mk.injEq, Prod.mk.injEq] at h
            obtain ⟨_, hu, hv, ht⟩ := h
            subst hu; subst hv; subst ht
            refine ⟨?_, hacc.1⟩
            simp only [newtonResidual]
            exact hacc.2
          · exact ih _ _ _ _ _ _ h
        · exact ih _ _ _ _ _ _ h

/-- Claim C7 (confirmed): newtonRefine runs the Newton iteration with the
fixed bound MAX_IT = 8 (the fuel of newtonLoop) and reports success only
when, at the returned parameters (u, v, t), the position residual
length(P(u,v) - (ro + rd*t)) is below EPS_F = 1e-4, u and v lie in
[-0.01, 1.01], and t lies in [tMin, tMax]; every other path -- a
near-singular Jacobian (|det| < 1e-10) or exhaustion of the iteration
budget -- returns false, so a leaf can only be missed, never wrongly
hit. -/
theorem c7_newton_refinement (sqrt : ℚ → ℚ) (cp : Fin 4 → Fin 4 → V3) (ro rd : V3)
    (tMin tMax u v t uf vf tf : ℚ)
    (hres : newtonRefine sqrt cp ro rd tMin tMax u v t = (true, uf, vf, tf)) :
    newtonResidual sqrt cp ro rd uf vf tf < NEWTON_EPS_F ∧
    newtonInside tMin tMax uf vf tf = true :=
  newtonLoop_success sqrt cp ro rd tMin tMax 8 u v t uf vf tf hres

theorem c7_newton_refinement_witness :
    newtonRefine Rat.sqrt flatPatchCP ⟨1/2, 1/2, -1⟩ ⟨0, 0, 1⟩ 0 10 (1/2) (1/2) 1 =
      (true, 1/2, 1/2, 1) ∧
    newtonResidual Rat.sqrt flatPatchCP ⟨1/2, 1/2, -1⟩ ⟨0, 0, 1⟩ (1/2) (1/2) 1 <
      NEWTON_EPS_F ∧
    newtonInside 0 10 (1/2) (1/2) 1 = true :=
  ⟨by with_unfolding_all decide,
   c7_newton_refinement Rat.sqrt flatPatchCP ⟨1/2, 1/2, -1⟩ ⟨0, 0, 1⟩ 0 10 (1/2) (1/2) 1
     (1/2) (1/2) 1 (by with_unfolding_all decide)⟩

theorem isFiniteJ_sanitize (a : JsNum) :
    isFiniteJ (if isFiniteJ a then a else .num 0) = true := by
  cases a <;> rfl

theorem finV_sanitizeVec3J (v : JsVec3) : finV (sanitizeVec3J v) = true := by
  simp only [finV, sanitizeVec3J, Bool.and_eq_true]
  exact ⟨⟨isFiniteJ_sanitize v.x, isFiniteJ_sanitize v.y⟩, isFiniteJ_sanitize v.z⟩

theorem finV_mem_sanitizedGridPoints (bez : Fin 4 → Fin 4 → JsVec3) :
    ∀ p ∈ sanitizedGridPoints bez, finV p = true := by
  intro p hp
  simp only [sanitizedGridPoints, List.mem_flatMap, List.mem_map] at hp
  obtain ⟨u, _, v, _, hpv⟩ := hp
  rw [← hpv]
  exact finV_sanitizeVec3J _

theorem jle_refl_fin (a : JsNum) (h : isFiniteJ a = true) : jle a a = true := by
  cases a <;> simp_all [jle, isFiniteJ]

theorem jle_trans_fin (a b c : JsNum) (ha : isFiniteJ a = true) (hb : isFiniteJ b = true)
    (hc : isFiniteJ c = true) (hab : jle a b = true) (hbc : jle b c = true) :
    jle a c = true := by
  cases a <;> cases b <;> cases c <;> simp_all [jle, isFiniteJ]
  exact le_trans hab hbc

theorem jlt_to_jle (a b : JsNum) (h : jlt a b = true) : jle a b = true := by
  cases a <;> cases b <;> simp_all [jlt, jle]
  exact le_of_lt h

theorem vleJ_refl (a : JsVec3) (h : finV a = true) : vleJ a a = true := by
  simp only [finV, Bool.and_eq_true] at h
  simp only [vleJ, Bool.and_eq_true]
  exact ⟨⟨jle_refl_fin _ h.1.1, jle_refl_fin _ h.1.2⟩, jle_refl_fin _ h.2⟩

theorem vleJ_trans (a b c : JsVec3) (ha : finV a = true) (hb : finV b = true)
    (hc : finV c = true) (hab : vleJ a b = true) (hbc : vleJ b c = true) :
    vleJ a c = true := by
  simp only [finV, vleJ, Bool.and_eq_true] at *
  exact ⟨⟨jle_trans_fin _ _ _ ha.1.1 hb.1.1 hc.1.1 hab.1.1 hbc.1.1,
          jle_trans_fin _ _ _ ha.1.2 hb.1.2 hc.1.2 hab.1.2 hbc.1.2⟩,
         jle_trans_fin _ _ _ ha.2 hb.2 hc.2 hab.2 hbc.2⟩

theorem jminU_fin (b p : JsNum) (hb : isFiniteJ b = true) (hp : isFiniteJ p = true) :
    isFiniteJ (if jlt p b then p else b) = true := by
  split <;> assumption

theorem jminU_le_l (b p : JsNum) (hb : isFiniteJ b = true) :
    jle (if jlt p b then p else b) b = true := by
  split
  · exact jlt_to_jle _ _ (by assumption)
  · exact jle_refl_fin b hb

theorem jminU_le_r (b p : JsNum) (hb : isFiniteJ b = true) (hp : isFiniteJ p = true) :
    jle (if jlt p b then p else b) p = true := by
  split
  · exact jle_refl_fin p hp
  · rename_i h
    cases b <;> cases p <;> simp_all [jlt, jle, isFiniteJ]

theorem jmaxU_fin (b p : JsNum) (hb : isFiniteJ b = true) (hp : isFiniteJ p = true) :
    isFiniteJ (if jlt b p then p else b) = true := by
  split <;> assumption

theorem jmaxU_ge_l (b p : JsNum) (hb : isFiniteJ b = true) :
    jle b (if jlt b p then p else b) = true := by
  split
  · exact jlt_to_jle _ _ (by assumption)
  · exact jle_refl_fin b hb

theorem jmaxU_ge_r (b p : JsNum) (hb : isFiniteJ b = true) (hp : isFiniteJ p = true) :
    jle p (if jlt b p then p else b) = true := by
  split
  · exact jle_refl_fin p hp
  · rename_i h
    cases b <;> cases p <;> simp_all [jlt, jle, isFiniteJ]

theorem updateMin_fin (b p : JsVec3) (hb : finV b = true) (hp : finV p = true) :
    finV (updateBoundsMinJ b p) = true := by
  simp only [finV, Bool.and_eq_true] at hb hp
  simp only [finV, updateBoundsMinJ, Bool.and_eq_true]
  exact ⟨⟨jminU_fin _ _ hb.1.1 hp.1.1, jminU_fin _ _ hb.1.2 hp.1.2⟩,
         jminU_fin _ _ hb.2 hp.2⟩

theorem updateMin_le_left (b p : JsVec3) (hb : finV b = true) :
    vleJ (updateBoundsMinJ b p) b = true := by
  simp only [finV, Bool.and_eq_true] at hb
  simp only [vleJ, updateBoundsMinJ, Bool.and_eq_true]
  exact ⟨⟨jminU_le_l _ _ hb.1.1, jminU_le_l _ _ hb.1.2⟩, jminU_le_l _ _ hb.2⟩

theorem updateMin_le_right (b p : JsVec3) (hb : finV b = true) (hp : finV p = true) :
    vleJ (updateBoundsMinJ b p) p = true := by
  simp only [finV, Bool.and_eq_true] at hb hp
  simp only [vleJ, updateBoundsMinJ, Bool.and_eq_true]
  exact ⟨⟨jminU_le_r _ _ hb.1.1 hp.1.1, jminU_le_r _ _ hb.1.2 hp.1.2⟩,
         jminU_le_r _ _ hb.2 hp.2⟩

theorem updateMax_fin (b p : JsVec3) (hb : finV b = true) (hp : finV p = true) :
    finV (updateBoundsMaxJ b p) = true := by
  simp only [finV, Bool.and_eq_true] at hb hp
  simp only [finV, updateBoundsMaxJ, Bool.and_eq_true]
  exact ⟨⟨jmaxU_fin _ _ hb.1.1 hp.1.1, jmaxU_fin _ _ hb.1.2 hp.1.2⟩,
         jmaxU_fin _ _ hb.2 hp.2⟩

theorem updateMax_ge_left (b p : JsVec3) (hb : finV b = true) :
    vleJ b (updateBoundsMaxJ b p) = true := by
  simp only [finV, Bool.and_eq_true] at hb
  simp only [vleJ, updateBoundsMaxJ, Bool.and_eq_true]
  exact ⟨⟨jmaxU_ge_l _ _ hb.1.1, jmaxU_ge_l _ _ hb.1.2⟩, jmaxU_ge_l _ _ hb.2⟩

theorem updateMax_ge_right (b p : JsVec3) (hb : finV b = true) (hp : finV p = true) :
    vleJ p (updateBoundsMaxJ b p) = true := by
  simp only [finV, Bool.and_eq_true] at hb hp
  simp only [vleJ, updateBoundsMaxJ, Bool.and_eq_true]
  exact ⟨⟨jmaxU_ge_r _ _ hb.1.1 hp.1.1, jmaxU_ge_r _ _ hb.1.2 hp.1.2⟩,
         jmaxU_ge_r _ _ hb.2 hp.2⟩

theorem foldMin_spec (l : List JsVec3) :
    ∀ init, finV init = true → (∀ p ∈ l, finV p = true) →
      finV (l.foldl updateBoundsMinJ init) = true ∧
      vleJ (l.foldl updateBoundsMinJ init) init = true ∧
      ∀ p ∈ l, vleJ (l.foldl updateBoundsMinJ init) p = true := by
  induction l with
  | nil =>
    intro init hi _
    exact ⟨hi, vleJ_refl init hi, by simp⟩
  | cons a l ih =>
    intro init hi hl
    simp only [List.foldl_cons]
    have ha := hl a (List.mem_cons_self a l)
    have hl' : ∀ p ∈ l, finV p = true := fun p hp => hl p (List.mem_cons_of_mem _ hp)
    have hni : finV (updateBoundsMinJ init a) = true := updateMin_fin _ _ hi ha
    obtain ⟨h1, h2, h3⟩ := ih (updateBoundsMinJ init a) hni hl'
    refine ⟨h1, ?_, ?_⟩
    · exact vleJ_trans _ _ _ h1 hni hi h2 (updateMin_le_left _ _ hi)
    · intro p hp
      rcases List.mem_cons.mp hp with rfl | hp
      · exact vleJ_trans _ _ _ h1 hni ha h2 (updateMin_le_right _ _ hi ha)
      · exact h3 p hp

theorem foldMax_spec (l : List JsVec3) :
    ∀ init, finV init = true → (∀ p ∈ l, finV p = true) →
      finV (l.foldl updateBoundsMaxJ init) = true ∧
      vleJ init (l.foldl updateBoundsMaxJ init) = true ∧
      ∀ p ∈ l, vleJ p (l.foldl updateBoundsMaxJ init) = true := by
  induction l with
  | nil =>
    intro init hi _
    exact ⟨hi, vleJ_refl init hi, by simp⟩
  | cons a l ih =>
    intro init hi hl
    simp only [List.foldl_cons]
    have ha := hl a (List.mem_cons_self a l)
    have hl' : ∀ p ∈ l, finV p = true := fun p hp => hl p (List.mem_cons_of_mem _ hp)
    have hni : finV (updateBoundsMaxJ init a) = true := updateMax_fin _ _ hi ha
    obtain ⟨h1, h2, h3⟩ := ih (updateBoundsMaxJ init a) hni hl'
    refine ⟨h1, ?_, ?_⟩
    · exact vleJ_trans _ _ _ hi hni h1 (updateMax_ge_left _ _ hi) h2
    · intro p hp
      rcases List.mem_cons.mp hp with rfl | hp
      · exact vleJ_trans _ _ _ ha hni h1 (updateMax_ge_right _ _ hi ha) h2
      · exact h3 p hp

theorem boundsFold_spec (bez : Fin 4 → Fin 4 → JsVec3) :
    vleJ ((sanitizedGridPoints bez).foldl updateBoundsMinJ (sanitizeVec3J (bez 0 0)))
      ((sanitizedGridPoints bez).foldl updateBoundsMaxJ (sanitizeVec3J (bez 0 0))) = true ∧
    ∀ p ∈ sanitizedGridPoints bez,
      vleJ ((sanitizedGridPoints bez).foldl updateBoundsMinJ (sanitizeVec3J (bez 0 0)))
        p = true ∧
      vleJ p ((sanitizedGridPoints bez).foldl updateBoundsMaxJ (sanitizeVec3J (bez 0 0)))
        = true := by
  have hinit := finV_sanitizeVec3J (bez 0 0)
  have hall := finV_mem_sanitizedGridPoints bez
  obtain ⟨hf1, hf2, hf3⟩ := foldMin_spec (sanitizedGridPoints bez) _ hinit hall
  obtain ⟨hg1, hg2, hg3⟩ := foldMax_spec (sanitizedGridPoints bez) _ hinit hall
  refine ⟨vleJ_trans _ _ _ hf1 hinit hg1 hf2 hg2, fun p hp => ⟨hf3 p hp, hg3 p hp⟩⟩

theorem le_maxQ_left (a x : ℚ) : a ≤ maxQ a x := by
  simp only [maxQ]
  split
  · assumption
  · exact le_refl a

/-- Claim C10 (confirmed): convertHermitePatchToBezier is total and its
output is always well-formed.  For every input patch, including patches with
NaN or Infinity components: exactly 16 control points are returned and every
one of them is componentwise finite (sanitizeVec3 replaces non-finite
components by 0); boundsMin <= boundsMax componentwise; the bounds box
contains all 16 control points; and the clamped tunables satisfy
maxDepth >= 1 and pixelEpsilon >= 1e-5. -/
theorem c10_converter_safety (patch : BezierPatchInstanceJ) :
    (convertHermitePatchToBezierJ patch).controlPoints.length = 16 ∧
    (∀ p ∈ (convertHermitePatchToBezierJ patch).controlPoints, finV p = true) ∧
    vleJ (convertHermitePatchToBezierJ patch).boundsMin
      (convertHermitePatchToBezierJ patch).boundsMax = true ∧
    (∀ p ∈ (convertHermitePatchToBezierJ patch).controlPoints,
      vleJ (convertHermitePatchToBezierJ patch).boundsMin p = true ∧
      vleJ p (convertHermitePatchToBezierJ patch).boundsMax = true) ∧
    1 ≤ (convertHermitePatchToBezierJ patch).maxDepth ∧
    1 / 100000 ≤ (convertHermitePatchToBezierJ patch).pixelEpsilon := by
  simp only [convertHermitePatchToBezierJ]
  refine ⟨rfl, finV_mem_sanitizedGridPoints _, (boundsFold_spec _).1, (boundsFold_spec _).2,
    ?_, ?_⟩
  · rcases patch.maxDepth with _ | d
    · simp only [BEZIER_MAX_DEPTH_DEFAULT]
      norm_num
    · cases d
      · exact le_maxQ_left 1 _
      all_goals simp only [BEZIER_MAX_DEPTH_DEFAULT]; norm_num
  · rcases patch.pixelEpsilon with _ | e
    · simp only [BEZIER_PIXEL_EPSILON_DEFAULT]
      norm_num
    · cases e
      · exact le_maxQ_left (1 / 100000) _
      all_goals simp only [BEZIER_PIXEL_EPSILON_DEFAULT]; norm_num

theorem dot_addScaledVec3 (n acc v : V3) (s : ℚ) :
    dotVec3 n (addScaledVec3 acc v s) = dotVec3 n acc + dotVec3 n v * s := by
  simp only [dotVec3, addScaledVec3]
  ring

theorem dot_zeroV (n : V3) : dotVec3 n ⟨0, 0, 0⟩ = 0 := by
  simp only [dotVec3]
  ring

theorem jdot_sanitize_lift (n w : V3) :
    jdot n (sanitizeVec3J (liftV3 w)) = .num (dotVec3 n w) := rfl

theorem liftBez (p : BezierPatchInstance) :
    multiplyHermiteMatrixRightJ (multiplyHermiteMatrixLeftJ HERMITE_TO_BEZIER
      (hermiteGridJ (liftPatch p))) HERMITE_TO_BEZIER =
    fun i j => liftV3 (multiplyHermiteMatrixRight (multiplyHermiteMatrixLeft
      HERMITE_TO_BEZIER (hermiteGrid p)) HERMITE_TO_BEZIER i j) := by
  funext i j
  fin_cases i <;> fin_cases j <;> rfl

theorem bezierQ_coplanar (p : BezierPatchInstance) (n : V3) (d : ℚ)
    (h00 : dotVec3 n p.p00 = d) (h01 : dotVec3 n p.p01 = d)
    (h10 : dotVec3 n p.p10 = d) (h11 : dotVec3 n p.p11 = d)
    (hu00 : dotVec3 n p.du00 = 0) (hu01 : dotVec3 n p.du01 = 0)
    (hu10 : dotVec3 n p.du10 = 0) (hu11 : dotVec3 n p.du11 = 0)
    (hv00 : dotVec3 n p.dv00 = 0) (hv01 : dotVec3 n p.dv01 = 0)
    (hv10 : dotVec3 n p.dv10 = 0) (hv11 : dotVec3 n p.dv11 = 0)
    (huv00 : dotVec3 n p.duv00 = 0) (huv01 : dotVec3 n p.duv01 = 0)
    (huv10 : dotVec3 n p.duv10 = 0) (huv11 : dotVec3 n p.duv11 = 0) :
    ∀ u v : Fin 4, dotVec3 n
      (multiplyHermiteMatrixRight
        (multiplyHermiteMatrixLeft HERMITE_TO_BEZIER (hermiteGrid p))
        HERMITE_TO_BEZIER u v) = d := by
  intro u v
  fin_cases u <;> fin_cases v <;>
    (simp only [multiplyHermiteMatrixRight, multiplyHermiteMatrixLeft,
       dot_addScaledVec3, dot_zeroV];
     norm_num [hermiteGrid, HERMITE_TO_BEZIER, Matrix.cons_val_zero, Matrix.cons_val_one,
       Matrix.head_cons, Matrix.cons_val_two, Matrix.tail_cons, Matrix.cons_val_three,
       h00, h01, h10, h11, hu00, hu01, hu10, hu11, hv00, hv01, hv10, hv11,
       huv00, huv01, huv10, huv11])

/-- Claim C8 (confirmed): Hermite-to-Bezier planarity round-trip.  For every
Hermite patch whose 16 (finite) input vectors are coplanar / plane-parallel
-- the four corner positions lie on the plane dot(n, x) = d and the twelve
tangent and twist vectors are parallel to it (dot(n, v) = 0) -- every one of
the 16 Bezier control points produced by convertHermitePatchToBezier lies
exactly on the same plane (the conversion is the fixed two-sided 4x4
change-of-basis matrix product, a pure linear transform). -/
theorem c8_planar_roundtrip (p : BezierPatchInstance) (n : V3) (d : ℚ)
    (h00 : dotVec3 n p.p00 = d) (h01 : dotVec3 n p.p01 = d)
    (h10 : dotVec3 n p.p10 = d) (h11 : dotVec3 n p.p11 = d)
    (hu00 : dotVec3 n p.du00 = 0) (hu01 : dotVec3 n p.du01 = 0)
    (hu10 : dotVec3 n p.du10 = 0) (hu11 : dotVec3 n p.du11 = 0)
    (hv00 : dotVec3 n p.dv00 = 0) (hv01 : dotVec3 n p.dv01 = 0)
    (hv10 : dotVec3 n p.dv10 = 0) (hv11 : dotVec3 n p.dv11 = 0)
    (huv00 : dotVec3 n p.duv00 = 0) (huv01 : dotVec3 n p.duv01 = 0)
    (huv10 : dotVec3 n p.duv10 = 0) (huv11 : dotVec3 n p.duv11 = 0) :
    ((convertHermitePatchToBezierJ (liftPatch p)).controlPoints).map (jdot n) =
      List.replicate 16 (JsNum.num d) := by
  have key := bezierQ_coplanar p n d h00 h01 h10 h11 hu00 hu01 hu10 hu11
    hv00 hv01 hv10 hv11 huv00 huv01 huv10 huv11
  simp only [convertHermitePatchToBezierJ, liftBez p]
  simp only [sanitizedGridPoints, List.map_flatMap, List.map_map, Function.comp_def]
  simp only [jdot_sanitize_lift, key]
  rfl

theorem c8_planar_roundtrip_witness :
    ((convertHermitePatchToBezierJ (liftPatch planarPatch)).controlPoints).map
      (jdot ⟨0, 0, 1⟩) = List.replicate 16 (JsNum.num 0) :=
  c8_planar_roundtrip planarPatch ⟨0, 0, 1⟩ 0
    (by with_unfolding_all decide) (by with_unfolding_all decide)
    (by with_unfolding_all decide) (by with_unfolding_all decide)
    (by with_unfolding_all decide) (by with_unfolding_all decide)
    (by with_unfolding_all decide) (by with_unfolding_all decide)
    (by with_unfolding_all decide) (by with_unfolding_all decide)
    (by with_unfolding_all decide) (by with_unfolding_all decide)
    (by with_unfolding_all decide) (by with_unfolding_all decide)
    (by with_unfolding_all decide) (by with_unfolding_all decide)

/-- Claim C9 (confirmed): packing is deterministic and idempotent.  The only
mutable state the packing stage touches is the pair of module-level debug
flags; running buildPrimitiveAcceleration twice on the same scene primitive
state (threading the flag state through) produces identical results -- in
particular bit-identical AABB, primitive-reference, and sphere / analytic /
bezier parameter buffers -- and the result never depends on the flags. -/
theorem c9_packing_idempotent (debugLoggingEnabled : Bool) (flags : DebugFlags)
    (sqrt : ℚ → ℚ) (storageBufferLimit : ℕ) (prims : ScenePrimitiveState) :
    (buildPrimitiveAccelerationLogged debugLoggingEnabled
        (buildPrimitiveAccelerationLogged debugLoggingEnabled flags sqrt
          storageBufferLimit prims).1 sqrt storageBufferLimit prims).2 =
      (buildPrimitiveAccelerationLogged debugLoggingEnabled flags sqrt
        storageBufferLimit prims).2 ∧
    (buildPrimitiveAccelerationLogged debugLoggingEnabled flags sqrt
        storageBufferLimit prims).2 =
      buildPrimitiveAcceleration sqrt storageBufferLimit prims :=
  ⟨rfl, rfl⟩

/-! ### Claim C5 -/

/-- Claim C5 (confirmed): the sphere kernel solves the standard quadratic and
reports the smaller root when it is at least tMin (and below INF), otherwise
the larger root; and for the unit sphere at the origin with the ray from
(0,0,5) in direction (0,0,-1) and tMin = 0.001 it reports the hit at t = 4
with surface normal (0,0,1). -/
theorem c5_sphere_kernel :
    (∀ (sqrt : ℚ → ℚ) (center : V3) (R : ℚ) (ro rd : V3) (nearT : ℚ),
      0 ≤ sphereDisc center R ro rd →
      ((¬ sphereT0 sqrt center R ro rd < nearT → sphereT0 sqrt center R ro rd < INF →
          sphereIntersect sqrt center R ro rd nearT = some (sphereT0 sqrt center R ro rd)) ∧
       (sphereT0 sqrt center R ro rd < nearT → ¬ sphereT1 sqrt center R ro rd < nearT →
          sphereT1 sqrt center R ro rd < INF →
          sphereIntersect sqrt center R ro rd nearT = some (sphereT1 sqrt center R ro rd)))) ∧
    sphereIntersect Rat.sqrt ⟨0, 0, 0⟩ 1 ⟨0, 0, 5⟩ ⟨0, 0, -1⟩ (1 / 1000) = some 4 ∧
    sphereNormal Rat.sqrt ⟨0, 0, 0⟩ ⟨0, 0, 5⟩ ⟨0, 0, -1⟩ 4 = ⟨0, 0, 1⟩ := by
  refine ⟨?_, by with_unfolding_all decide, by with_unfolding_all decide⟩
  intro sqrt center R ro rd nearT hdisc
  constructor
  · intro h0 h0inf
    simp only [sphereIntersect, if_pos hdisc, if_neg h0]
    rw [if_pos ⟨not_lt.mp h0, h0inf⟩]
  · intro h0 h1 h1inf
    simp only [sphereIntersect, if_pos hdisc, if_pos h0]
    rw [if_pos ⟨not_lt.mp h1, h1inf⟩]

/-- Witness for C5: the general root-selection rule applied to the concrete
end-to-end scenario (disc = 1, so the reported root is t0 = 4). -/
theorem c5_sphere_kernel_witness :
    sphereIntersect Rat.sqrt ⟨0, 0, 0⟩ 1 ⟨0, 0, 5⟩ ⟨0, 0, -1⟩ (1 / 1000) =
      some (sphereT0 Rat.sqrt ⟨0, 0, 0⟩ 1 ⟨0, 0, 5⟩ ⟨0, 0, -1⟩) :=
  (c5_sphere_kernel.1 Rat.sqrt ⟨0, 0, 0⟩ 1 ⟨0, 0, 5⟩ ⟨0, 0, -1⟩ (1 / 1000)
      (by with_unfolding_all decide)).1
    (by with_unfolding_all decide) (by with_unfolding_all decide)

end WebRTX
